import Mathlib

set_option maxHeartbeats 1000000
set_option maxRecDepth 40000

namespace UpbJson

/-! Shallow embedding of upb/json/parser.c: a streaming JSON parser that
    drives protobuf-style sink events.  The development models, in order, the
    external C library routines the file uses, the schema capability, the
    parser state, every parser callback, and the generated Ragel machine,
    followed by the verification theorems for the frozen claims. -/

/-- Bytes of an ASCII string literal, used to model C string constants. -/
def strB (s : String) : List Nat := s.toList.map Char.toNat

/-- SIZE_MAX of the 64-bit size_t model. -/
def SIZE_MAX : Nat := 2 ^ 64 - 1

/-- UPB_JSON_MAX_DEPTH from upb/json/parser.c. -/
def UPB_JSON_MAX_DEPTH : Nat := 64

/-- C strlen on a byte list: number of bytes before the first NUL. -/
def cstrlen (s : List Nat) : Nat := (s.takeWhile (fun b => b ≠ 0)).length

/-- The bytes of a NUL-terminated C string up to the terminator. -/
def cstr (s : List Nat) : List Nat := s.takeWhile (fun b => b ≠ 0)

/-- Whitespace bytes skipped by the strto* routines (isspace in the C locale). -/
def isSpaceByte (b : Nat) : Bool := b == 32 || (9 ≤ b && b ≤ 13)

/-- Value of a byte as a digit in the given base, as the strto* routines accept
    it (0-9, then letters of either case), or none. -/
def digitVal? (base : Nat) (b : Nat) : Option Nat :=
  let v : Option Nat :=
    if 48 ≤ b ∧ b ≤ 57 then some (b - 48)
    else if 65 ≤ b ∧ b ≤ 90 then some (b - 55)
    else if 97 ≤ b ∧ b ≤ 122 then some (b - 87)
    else none
  match v with
  | some v => if v < base then some v else none
  | none => none

/-- Longest digit run in the given base at the head of the list: returns the
    number of digits consumed and their value. -/
def digitsRun (base : Nat) : List Nat → Nat × Nat
  | [] => (0, 0)
  | b :: rest =>
    match digitVal? base b with
    | none => (0, 0)
    | some v =>
      let r := digitsRun base rest
      (r.1 + 1, v * base ^ r.1 + r.2)

/-- Result of the strtol / strtoul models: the value, the index one past the
    last consumed byte (0 when no conversion was performed, matching the C
    convention that endptr is reset to the start), and whether ERANGE was
    raised. -/
structure StrtolRes where
  val : Int
  endIdx : Nat
  erange : Bool
deriving DecidableEq, Repr

/-- Whether the list starts with a 0x / 0X prefix followed by a hex digit, as
    tested by strtol with base 0 or 16. -/
def hexPrefix (s : List Nat) : Bool :=
  match s with
  | 48 :: x :: r => (x == 120 || x == 88) && (digitVal? 16 (r.headD 0)).isSome && !r.isEmpty
  | _ => false

/-- Model of the C standard library strtol with a 64-bit long.  Handles the
    bases 0 and 10 used by the parser: skips isspace bytes, an optional sign,
    a 0x/0X or leading-0 base prefix in base 0, then accumulates digits.  On
    overflow the value saturates at LONG_MAX / LONG_MIN and ERANGE is raised. -/
def strtol (s : List Nat) (base : Nat) : StrtolRes :=
  let ws := (s.takeWhile isSpaceByte).length
  let s1 := s.drop ws
  let sgn : Nat × Bool :=
    match s1 with
    | 43 :: _ => (1, false)
    | 45 :: _ => (1, true)
    | _ => (0, false)
  let s2 := s1.drop sgn.1
  let pb : Nat × Nat :=
    if (base == 0 || base == 16) && hexPrefix s2 then (2, 16)
    else if base == 0 && s2.headD 0 == 48 && !s2.isEmpty then (0, 8)
    else if base == 0 then (0, 10)
    else (0, base)
  let s3 := s2.drop pb.1
  let run := digitsRun pb.2 s3
  if run.1 == 0 then ⟨0, 0, false⟩
  else
    let endIdx := ws + sgn.1 + pb.1 + run.1
    if sgn.2 then
      if run.2 > 2 ^ 63 then ⟨-(2 : Int) ^ 63, endIdx, true⟩
      else ⟨-(run.2 : Int), endIdx, false⟩
    else
      if run.2 > 2 ^ 63 - 1 then ⟨(2 : Int) ^ 63 - 1, endIdx, true⟩
      else ⟨(run.2 : Int), endIdx, false⟩

/-- Result of the strtoul model (value is the unsigned long bit pattern). -/
structure StrtoulRes where
  val : Nat
  endIdx : Nat
  erange : Bool
deriving DecidableEq, Repr

/-- Model of the C standard library strtoul with a 64-bit unsigned long.  A
    leading minus sign negates the value modulo 2^64, as the C standard
    specifies; ERANGE is raised when the magnitude exceeds ULONG_MAX. -/
def strtoul (s : List Nat) (base : Nat) : StrtoulRes :=
  let ws := (s.takeWhile isSpaceByte).length
  let s1 := s.drop ws
  let sgn : Nat × Bool :=
    match s1 with
    | 43 :: _ => (1, false)
    | 45 :: _ => (1, true)
    | _ => (0, false)
  let s2 := s1.drop sgn.1
  let pb : Nat × Nat :=
    if (base == 0 || base == 16) && hexPrefix s2 then (2, 16)
    else if base == 0 && s2.headD 0 == 48 && !s2.isEmpty then (0, 8)
    else if base == 0 then (0, 10)
    else (0, base)
  let s3 := s2.drop pb.1
  let run := digitsRun pb.2 s3
  if run.1 == 0 then ⟨0, 0, false⟩
  else
    let endIdx := ws + sgn.1 + pb.1 + run.1
    if run.2 > 2 ^ 64 - 1 then ⟨2 ^ 64 - 1, endIdx, true⟩
    else if sgn.2 then ⟨(2 ^ 64 - run.2 % 2 ^ 64) % 2 ^ 64, endIdx, false⟩
    else ⟨run.2, endIdx, false⟩

/-- Model of a C double value: a finite value kept as an exact fraction
    num / den (den positive, not necessarily reduced), or an infinity.  The
    parser only ever consults doubles through comparisons, integrality tests
    and truncating conversions, which this representation supports exactly.
    Values whose decimal source is not exactly representable in binary differ
    from the C double by a rounding error; every concrete value examined in
    this file is exactly representable, so the model agrees with C there. -/
inductive DVal where
  | fin (num : Int) (den : Nat)
  | inf (neg : Bool)
deriving DecidableEq, Repr

/-- Comparison val > c for an integer bound c (the bound being exactly
    representable as a double at every use site, possibly after the implicit
    int-to-double conversion the C code performs). -/
def DVal.gtI : DVal → Int → Bool
  | .fin n d, c => n > c * d
  | .inf neg, _ => !neg

/-- Comparison val < c for an integer bound c. -/
def DVal.ltI : DVal → Int → Bool
  | .fin n d, c => n < c * d
  | .inf neg, _ => neg

/-- Test modf(val, &dummy) == 0, i.e. the value has no fractional part.  The
    fractional part of an infinity is 0. -/
def DVal.isIntegral : DVal → Bool
  | .fin n d => (d : Int) ∣ n
  | .inf _ => true

/-- Truncating conversion of a double to an integer type (C truncates toward
    zero).  Unreachable for infinities after the range checks the parser
    performs. -/
def DVal.trunc : DVal → Int
  | .fin n d => n.tdiv d
  | .inf _ => 0

/-- Multiply by an integer factor. -/
def DVal.mulI : DVal → Int → DVal
  | .fin n d, k => .fin (n * k) d
  | .inf neg, k => .inf (neg != decide (k < 0))

/-- Whether the value is the given signed infinity. -/
def DVal.isInf : DVal → Bool → Bool
  | .inf n, neg => n == neg
  | .fin _ _, _ => false

/-- DBL_MAX = (2^53 - 1) * 2^971 as an exact integer numeral (written out so
    that kernel evaluation needs no deep power recursion). -/
def DBL_MAX_NUM : Int := 179769313486231570814527423731704356798070567525844996598917476803157260780028538760589558632766878171540458953514382464234321326889464182768467546703537516986049910576551282076245490090389328944075868508455133942304583236903222948165808559332123348274797826204144723168738177180919299881250404026184124858368

/-- FLT_MAX = (2^24 - 1) * 2^104 as an exact integer numeral. -/
def FLT_MAX_INT : Int := 340282346638528859811704183484516925440

/-- Result of the strtod model. -/
structure StrtodRes where
  val : DVal
  endIdx : Nat
  erange : Bool
deriving DecidableEq, Repr

/-- Exponent part of a decimal literal: e or E, an optional sign, at least one
    digit; otherwise no bytes are consumed. -/
def parseExp (s : List Nat) : Nat × Int :=
  match s with
  | e :: r =>
    if e == 101 || e == 69 then
      let sgn : Nat × Bool :=
        match r with
        | 43 :: _ => (1, false)
        | 45 :: _ => (1, true)
        | _ => (0, false)
      let run := digitsRun 10 (r.drop sgn.1)
      if run.1 == 0 then (0, 0)
      else (1 + sgn.1 + run.1, if sgn.2 then -(run.2 : Int) else (run.2 : Int))
    else (0, 0)
  | [] => (0, 0)

/-- Model of the C standard library strtod restricted to the plain decimal
    forms the parser feeds it: optional sign, digits with an optional decimal
    point, optional exponent.  The value is kept as an exact rational; ERANGE
    is raised when the magnitude exceeds DBL_MAX (the underflow case and the
    C99 hex-float and infinity spellings are not modelled; the parser
    intercepts the Infinity spellings before calling strtod). -/
def strtod (s : List Nat) : StrtodRes :=
  let ws := (s.takeWhile isSpaceByte).length
  let s1 := s.drop ws
  let sgn : Nat × Bool :=
    match s1 with
    | 43 :: _ => (1, false)
    | 45 :: _ => (1, true)
    | _ => (0, false)
  let s2 := s1.drop sgn.1
  let run1 := digitsRun 10 s2
  let s3 := s2.drop run1.1
  let frac : Nat × Nat × Nat :=
    match s3 with
    | 46 :: r => let run2 := digitsRun 10 r; (1, run2.1, run2.2)
    | _ => (0, 0, 0)
  if run1.1 + frac.2.1 == 0 then ⟨.fin 0 1, 0, false⟩
  else
    let s4 := s3.drop (frac.1 + frac.2.1)
    let ex := parseExp s4
    let mant : Nat := run1.2 * 10 ^ frac.2.1 + frac.2.2
    let e : Int := ex.2 - frac.2.1
    let numAbs : Int × Nat :=
      if 0 ≤ e then ((mant : Int) * 10 ^ e.toNat, 1)
      else ((mant : Int), 10 ^ (-e).toNat)
    let num : Int := if sgn.2 then -numAbs.1 else numAbs.1
    let endIdx := ws + sgn.1 + run1.1 + frac.1 + frac.2.1 + ex.1
    ⟨.fin num numAbs.2, endIdx, numAbs.1 > DBL_MAX_NUM * numAbs.2⟩

/-- Fields of the C struct tm that the parser uses. -/
structure Tm where
  tm_sec : Int
  tm_min : Int
  tm_hour : Int
  tm_mday : Int
  tm_mon : Int
  tm_year : Int
deriving DecidableEq, Repr, Inhabited

/-- Up to w leading digits: count consumed and value. -/
def numUpTo (w : Nat) (s : List Nat) : Nat × Nat := digitsRun 10 (s.take w)

/-- Days since the Unix epoch of the civil date y-m-d (month 1-based),
    following the standard civil-from-days algorithm with the truncating
    division of C. -/
def days_from_civil (y m d : Int) : Int :=
  let y1 := y - (if m ≤ 2 then 1 else 0)
  let era := (if 0 ≤ y1 then y1 else y1 - 399).tdiv 400
  let yoe := y1 - era * 400
  let doy := (153 * (m + (if 2 < m then -3 else 9)) + 2).tdiv 5 + d - 1
  let doe := yoe * 365 + yoe.tdiv 4 - yoe.tdiv 100 + doy
  era * 146097 + doe - 719468

/-- Model of mktime under a UTC timezone (the parser is only correct when run
    with TZ=UTC; mktime normalization is linear in the out-of-range hour
    values the zone handler can produce, which this formula reproduces). -/
def c_mktime (tm : Tm) : Int :=
  days_from_civil (tm.tm_year + 1900) (tm.tm_mon + 1) tm.tm_mday * 86400 +
    tm.tm_hour * 3600 + tm.tm_min * 60 + tm.tm_sec

/-- Model of strptime(buf, "%FT%H:%M:%S", tm): parses YYYY-MM-DDTHH:MM:SS
    with the glibc field-width and range checks, updating the given tm.
    Returns the updated tm and the number of consumed bytes, or none. -/
def strptime_FT (s : List Nat) (_tm : Tm) : Option (Tm × Nat) :=
  let ry := numUpTo 4 s
  if ry.1 == 0 then none else
  let s1 := s.drop ry.1
  if s1.headD 0 ≠ 45 then none else
  let rm := numUpTo 2 (s1.drop 1)
  if rm.1 == 0 || rm.2 < 1 || 12 < rm.2 then none else
  let s2 := s1.drop (1 + rm.1)
  if s2.headD 0 ≠ 45 then none else
  let rd := numUpTo 2 (s2.drop 1)
  if rd.1 == 0 || rd.2 < 1 || 31 < rd.2 then none else
  let s3 := s2.drop (1 + rd.1)
  if s3.headD 0 ≠ 84 then none else
  let rh := numUpTo 2 (s3.drop 1)
  if rh.1 == 0 || 23 < rh.2 then none else
  let s4 := s3.drop (1 + rh.1)
  if s4.headD 0 ≠ 58 then none else
  let rmin := numUpTo 2 (s4.drop 1)
  if rmin.1 == 0 || 59 < rmin.2 then none else
  let s5 := s4.drop (1 + rmin.1)
  if s5.headD 0 ≠ 58 then none else
  let rs := numUpTo 2 (s5.drop 1)
  if rs.1 == 0 || 60 < rs.2 then none else
  some (⟨rs.2, rmin.2, rh.2, rd.2, (rm.2 : Int) - 1, (ry.2 : Int) - 1900⟩,
    ry.1 + 1 + rm.1 + 1 + rd.1 + 1 + rh.1 + 1 + rmin.1 + 1 + rs.1)

/-- Model of sscanf(buf, "%2d:00", &hours): skips isspace bytes, accepts an
    optional sign and then at most two digits; returns the parsed hours when
    the conversion succeeded (the trailing literal does not change the
    return value the caller tests). -/
def scan_hour2 (s : List Nat) : Option Int :=
  let ws := (s.takeWhile isSpaceByte).length
  let s1 := s.drop ws
  let sgn : Nat × Bool :=
    match s1 with
    | 43 :: _ => (1, false)
    | 45 :: _ => (1, true)
    | _ => (0, false)
  let run := numUpTo 2 (s1.drop sgn.1)
  if run.1 == 0 then none
  else some (if sgn.2 then -(run.2 : Int) else (run.2 : Int))

/-! Schema capability.  The reflection layer is an external collaborator of
    the parser; it is modelled as immutable data: field descriptors carry the
    attributes the parser queries, message descriptors are looked up by full
    name in a schema environment so that recursive message types can be
    expressed. -/

/-- Field type, mirroring upb_fieldtype_t restricted to the UPB_TYPE values
    the parser distinguishes.  Enum fields carry their name-to-number table
    (upb_enumdef_ntoi capability); message fields refer to the submessage by
    full name. -/
inductive FieldType where
  | t_int32
  | t_int64
  | t_uint32
  | t_uint64
  | t_double
  | t_float
  | t_bool
  | t_string
  | t_bytes
  | t_enum (vals : List (String × Int))
  | t_message (msg : String)
deriving DecidableEq, Repr, Inhabited

/-- Field descriptor attributes the parser queries. -/
structure FieldDef where
  fname : String
  jsonName : String
  number : Nat
  ftype : FieldType
  isSeq : Bool
  isMapF : Bool
deriving DecidableEq, Repr, Inhabited

/-- Message descriptor: full name and fields. -/
structure MsgDef where
  fullname : String
  fields : List FieldDef
deriving DecidableEq, Repr, Inhabited

/-- Schema environment resolving message full names (the descriptor pool). -/
def SchemaEnv := List (String × MsgDef)
deriving DecidableEq, Inhabited, Repr

/-- upb_fielddef_issubmsg. -/
def fielddef_issubmsg (f : FieldDef) : Bool :=
  match f.ftype with
  | .t_message _ => true
  | _ => false

/-- upb_fielddef_isstring (true for string and bytes fields). -/
def fielddef_isstring (f : FieldDef) : Bool :=
  match f.ftype with
  | .t_string => true
  | .t_bytes => true
  | _ => false

/-- upb_fielddef_msgsubdef via the schema environment. -/
def fielddef_msgsubdef (env : SchemaEnv) (f : FieldDef) : Option MsgDef :=
  match f.ftype with
  | .t_message n => ((env : List (String × MsgDef)).find? (fun p => p.1 == n)).map (fun p => p.2)
  | _ => none

/-- upb_msgdef_itof: field lookup by number. -/
def msgdef_itof (m : MsgDef) (n : Nat) : Option FieldDef :=
  m.fields.find? (fun f => f.number == n)

/-- upb_enumdef_ntoi: resolve an enum name (given as bytes with a length, as
    the parser passes it) to its number. -/
def enumdef_ntoi (vals : List (String × Int)) (name : List Nat) : Option Int :=
  (vals.find? (fun p => strB p.1 == name)).map (fun p => p.2)

def kDoubleValueFullMessageName : String := "google.protobuf.DoubleValue"
def kFloatValueFullMessageName : String := "google.protobuf.FloatValue"
def kInt64ValueFullMessageName : String := "google.protobuf.Int64Value"
def kUInt64ValueFullMessageName : String := "google.protobuf.UInt64Value"
def kInt32ValueFullMessageName : String := "google.protobuf.Int32Value"
def kUInt32ValueFullMessageName : String := "google.protobuf.UInt32Value"
def kBoolValueFullMessageName : String := "google.protobuf.BoolValue"
def kStringValueFullMessageName : String := "google.protobuf.StringValue"
def kBytesValueFullMessageName : String := "google.protobuf.BytesValue"

def is_double_value (m : MsgDef) : Bool := m.fullname == kDoubleValueFullMessageName
def is_float_value (m : MsgDef) : Bool := m.fullname == kFloatValueFullMessageName
def is_int64_value (m : MsgDef) : Bool := m.fullname == kInt64ValueFullMessageName
def is_uint64_value (m : MsgDef) : Bool := m.fullname == kUInt64ValueFullMessageName
def is_int32_value (m : MsgDef) : Bool := m.fullname == kInt32ValueFullMessageName
def is_uint32_value (m : MsgDef) : Bool := m.fullname == kUInt32ValueFullMessageName
def is_bool_value (m : MsgDef) : Bool := m.fullname == kBoolValueFullMessageName
def is_string_value (m : MsgDef) : Bool := m.fullname == kStringValueFullMessageName
def is_bytes_value (m : MsgDef) : Bool := m.fullname == kBytesValueFullMessageName

def is_number_wrapper (m : MsgDef) : Bool :=
  is_double_value m || is_float_value m || is_int64_value m ||
    is_uint64_value m || is_int32_value m || is_uint32_value m

def is_string_wrapper (m : MsgDef) : Bool :=
  is_string_value m || is_bytes_value m

/-- upb_msgdef_duration, modelled by the well-known full name. -/
def msgdef_duration (m : MsgDef) : Bool := m.fullname == "google.protobuf.Duration"

/-- upb_msgdef_timestamp. -/
def msgdef_timestamp (m : MsgDef) : Bool := m.fullname == "google.protobuf.Timestamp"

/-- upb_msgdef_value. -/
def msgdef_value (m : MsgDef) : Bool := m.fullname == "google.protobuf.Value"

/-- upb_msgdef_listvalue. -/
def msgdef_listvalue (m : MsgDef) : Bool := m.fullname == "google.protobuf.ListValue"

/-- upb_msgdef_structvalue. -/
def msgdef_structvalue (m : MsgDef) : Bool := m.fullname == "google.protobuf.Struct"

/-- The json_name -> fielddef table that add_jsonname_table builds for a
    message: for each field an entry under its JSON name, and an entry under
    the raw proto name when the two differ. -/
def jsonNameTable (m : MsgDef) : List (List Nat × FieldDef) :=
  m.fields.flatMap (fun f =>
    (strB f.jsonName, f) ::
      (if f.jsonName == f.fname then [] else [(strB f.fname, f)]))

/-- upb_strtable_lookup2 on such a table. -/
def strtable_lookup2 (t : List (List Nat × FieldDef)) (key : List Nat) :
    Option FieldDef :=
  (t.find? (fun p => p.1 == key)).map (fun p => p.2)

/-! Sink model.  The downstream sink is an external collaborator consumed
    through typed events; the model records the events in document order.  A
    selector is modelled by the name of the field it was resolved from (the
    handler kind is carried by the event constructor). -/

/-- One sink event. -/
inductive Event where
  | startmsg
  | endmsg
  | startsubmsg (sel : String)
  | endsubmsg (sel : String)
  | startseq (sel : String)
  | endseq (sel : String)
  | startstr (sel : String) (sizeHint : Nat)
  | putstring (sel : String) (bytes : List Nat) (withHandle : Bool)
  | endstr (sel : String)
  | putbool (sel : String) (v : Bool)
  | putint32 (sel : String) (v : Int)
  | putint64 (sel : String) (v : Int)
  | putuint32 (sel : String) (v : Nat)
  | putuint64 (sel : String) (v : Nat)
  | putfloat (sel : String) (v : DVal)
  | putdouble (sel : String) (v : DVal)
deriving DecidableEq, Repr

/-- The multipart channel states from parser.c. -/
inductive Multipart where
  | inactive
  | accumulate
  | pusheagerly
deriving DecidableEq, Repr, Inhabited

/-- A capture pointer: an offset into the current input buffer, a pointer
    into a static string literal, or the suspend sentinel (&suspend_capture
    in the C). -/
inductive CPtr where
  | bufp (i : Int)
  | litp (s : List Nat) (i : Nat)
  | suspended
deriving DecidableEq, Repr

/-- One upb_jsonparser_frame.  The per-frame sink cursor is represented by
    the global event log; all other fields are as in the C struct.  Frames
    are slots of a fixed array, so a push only overwrites the fields the C
    assigns and the rest keep their previous slot values. -/
structure Frame where
  m : Option MsgDef
  f : Option FieldDef
  name_table : Option (List (List Nat × FieldDef))
  is_map : Bool
  is_mapentry : Bool
  mapfield : Option FieldDef
deriving DecidableEq, Repr

instance : Inhabited Frame := ⟨⟨none, none, none, false, false, none⟩⟩

/-- The upb_json_parser state (the fields the callbacks touch).  The Ragel
    machine registers cs / parser_stack / parser_top live in the machine
    state, below.  accumulated is the logical contents behind the pointer
    p->accumulated together with accumulated_len; accum_aliased models
    whether that pointer points outside accumulate_buf.  curBuf is the chunk
    the current buffer pointers refer to.  errnoR models errno == ERANGE. -/
structure PState where
  env : SchemaEnv
  stack : List Frame
  top : Nat
  status : Option (List Nat)
  accumulated : Option (List Nat)
  accumulated_len : Nat
  accumulate_buf_size : Nat
  accum_aliased : Bool
  multipart_state : Multipart
  string_selector : String
  capture : Option CPtr
  digit : Nat
  ignore_json_unknown : Bool
  tm : Tm
  curBuf : List Nat
  events : List Event
  errnoR : Bool
deriving DecidableEq, Repr

/-- The active frame p->top. -/
def topFrame (p : PState) : Frame := p.stack.getD p.top default

/-- Overwrite the frame slot at index i. -/
def setFrame (p : PState) (i : Nat) (fr : Frame) : PState :=
  { p with stack := p.stack.set i fr }

/-- Update the frame slot at index i in place. -/
def modifyFrame (p : PState) (i : Nat) (g : Frame → Frame) : PState :=
  setFrame p i (g (p.stack.getD i default))

/-- Append a sink event. -/
def emit (p : PState) (e : Event) : PState := { p with events := p.events ++ [e] }

/-- upb_status_seterrmsg / upb_status_seterrf followed by
    upb_env_reporterror: the parser status holds the message (later messages
    overwrite, as upb_status_seterrmsg does; the environment latches the
    first report, which coincides with the status everywhere this file
    observes it because the parser stops at the first failing callback). -/
def reporterr (p : PState) (msg : List Nat) : PState := { p with status := some msg }

/-- Record an errno update after a strto* call (the routines set ERANGE and
    never clear errno). -/
def errup (p : PState) (e : Bool) : PState := { p with errnoR := p.errnoR || e }

/-- Selector resolved from a field (unreachable with none: the C asserts a
    current field in getsel_for_handlertype). -/
def fsel (f : Option FieldDef) : String :=
  match f with
  | some f => f.fname
  | none => ""

/-- getsel_for_handlertype / parser_getsel: all selectors of a field are
    modelled by its name, the handler kind living in the event constructor. -/
def parser_getsel (p : PState) : String := fsel (topFrame p).f

/-- check_stack from parser.c. -/
def check_stack (p : PState) : Bool × PState :=
  if p.top + 1 == UPB_JSON_MAX_DEPTH then
    (false, reporterr p (strB "Nesting too deep"))
  else (true, p)

/-- set_name_table from parser.c: install the prebuilt json-name table of the
    frame message (the method cache is modelled by computing the table from
    the message descriptor, which is what add_jsonname_table stored). -/
def set_name_table (p : PState) (i : Nat) : PState :=
  modifyFrame p i (fun fr => { fr with name_table := fr.m.map jsonNameTable })

/-- checked_add from parser.c (some c on success). -/
def checked_add (a b : Nat) : Option Nat :=
  if SIZE_MAX - a < b then none else some (a + b)

/-- saturating_multiply from parser.c (size_t arithmetic wraps mod 2^64). -/
def saturating_multiply (a b : Nat) : Nat :=
  let ret := (a * b) % 2 ^ 64
  if b ≠ 0 ∧ ret / b ≠ a then SIZE_MAX else ret

/-- accumulate_clear from parser.c. -/
def accumulate_clear (p : PState) : PState :=
  { p with accumulated := none, accumulated_len := 0 }

/-- The while loop of accumulate_realloc: double (saturating) until the size
    reaches need.  The loop is entered with size ≥ 128, so fuel := need is
    far more than the number of iterations it can take. -/
def grow_loop : Nat → Nat → Nat → Nat
  | 0, _, size => size
  | fuel + 1, need, size =>
    if size < need then grow_loop fuel need (saturating_multiply size 2) else size

/-- accumulate_realloc from parser.c.  upb_env_realloc is modelled as always
    succeeding, so only the size bookkeeping is observable. -/
def accumulate_realloc (p : PState) (need : Nat) : Bool × PState :=
  let old_size := p.accumulate_buf_size
  let new_size := grow_loop need need (max old_size 128)
  (true, { p with accumulate_buf_size := new_size })

/-- accumulate_append from parser.c.  buf is the span data and len its length
    as the C passes them separately; the pointer comparison
    p->accumulated != p->accumulate_buf is modelled by accum_aliased (with
    NULL different from the buffer exactly when the buffer was ever
    allocated, i.e. accumulate_buf_size > 0). -/
def accumulate_append (p : PState) (buf : List Nat) (len : Nat)
    (can_alias : Bool) : Bool × PState :=
  if p.accumulated == none && can_alias then
    (true, { p with accumulated := some (buf.take len), accumulated_len := len,
                    accum_aliased := true })
  else
    match checked_add p.accumulated_len len with
    | none => (false, reporterr p (strB "Integer overflow."))
    | some need =>
      let r := if need > p.accumulate_buf_size then accumulate_realloc p need
               else (true, p)
      match r with
      | (false, p) => (false, p)
      | (true, p) =>
        let ptrNe : Bool :=
          match p.accumulated with
          | none => p.accumulate_buf_size > 0
          | some _ => p.accum_aliased
        let p := if ptrNe then
            { p with accumulated := some (p.accumulated.getD []), accum_aliased := false }
          else p
        let contents : Option (List Nat) :=
          match p.accumulated with
          | none => none
          | some c => some (c ++ buf.take len)
        (true, { p with accumulated := contents,
                        accumulated_len := p.accumulated_len + len })

/-- accumulate_getptr from parser.c (the C asserts a non-NULL accumulator). -/
def accumulate_getptr (p : PState) : List Nat × Nat :=
  (p.accumulated.getD [], p.accumulated_len)

/-- multipart_startaccum from parser.c (the assertions hold on every reachable
    call and are not modelled). -/
def multipart_startaccum (p : PState) : PState :=
  { p with multipart_state := .accumulate }

/-- multipart_start from parser.c. -/
def multipart_start (p : PState) (sel : String) : PState :=
  { p with multipart_state := .pusheagerly, string_selector := sel }

/-- multipart_text from parser.c. -/
def multipart_text (p : PState) (buf : List Nat) (len : Nat)
    (can_alias : Bool) : Bool × PState :=
  match p.multipart_state with
  | .inactive =>
    (false, reporterr p (strB "Internal error: unexpected state MULTIPART_INACTIVE"))
  | .accumulate => accumulate_append p buf len can_alias
  | .pusheagerly =>
    (true, emit p (.putstring p.string_selector (buf.take len) can_alias))

/-- multipart_end from parser.c. -/
def multipart_end (p : PState) : PState :=
  accumulate_clear { p with multipart_state := .inactive }

/-- Pointer difference within one capture region (regions never mix in
    reachable states; the mixed cases would be undefined in C). -/
def cptr_sub (a b : CPtr) : Nat :=
  match a, b with
  | .bufp j, .bufp i => (j - i).toNat
  | .litp _ j, .litp _ i => j - i
  | _, _ => 0

/-- Bytes of length len behind a capture pointer. -/
def cptr_read (p : PState) (c : CPtr) (len : Nat) : List Nat :=
  match c with
  | .bufp i => (p.curBuf.drop i.toNat).take len
  | .litp s i => (s.drop i).take len
  | .suspended => []

/-- capture_begin from parser.c. -/
def capture_begin (p : PState) (ptr : CPtr) : PState := { p with capture := some ptr }

/-- capture_end from parser.c. -/
def capture_end (p : PState) (ptr : CPtr) : Bool × PState :=
  match p.capture with
  | none => (false, p)
  | some c =>
    let len := cptr_sub ptr c
    match multipart_text p (cptr_read p c len) len true with
    | (true, p) => (true, { p with capture := none })
    | (false, p) => (false, p)

/-- capture_suspend from parser.c, at the end of a buffer whose position is
    pos: on success the capture becomes the suspend sentinel, on failure the
    position is rewound to the start of the capture so the bytes will be
    re-fed. -/
def capture_suspend (p : PState) (pos : Int) : Int × PState :=
  match p.capture with
  | none => (pos, p)
  | some c =>
    let len := cptr_sub (.bufp pos) c
    match multipart_text p (cptr_read p c len) len false with
    | (true, p) => (pos, { p with capture := some .suspended })
    | (false, p) =>
      match c with
      | .bufp i => (i, p)
      | _ => (pos, p)

/-- capture_resume from parser.c, called with the start of the new buffer:
    any live capture is re-begun at offset 0. -/
def capture_resume (p : PState) : PState :=
  if p.capture.isSome then { p with capture := some (.bufp 0) } else p

/-! Escape and hex decoding, and text capture callbacks. -/

/-- escape_char from parser.c (the default is asserted unreachable and
    returns the x byte). -/
def escape_char (b : Nat) : Nat :=
  match b with
  | 114 => 13
  | 116 => 9
  | 110 => 10
  | 102 => 12
  | 98 => 8
  | 47 => 47
  | 34 => 34
  | 92 => 92
  | _ => 120

/-- Byte of the current buffer at a machine position. -/
def byteAt (p : PState) (pos : Int) : Nat := p.curBuf.getD pos.toNat 0

/-- escape from parser.c: ptr is the machine position of the escaped byte. -/
def escape (p : PState) (pos : Int) : Bool × PState :=
  multipart_text p [escape_char (byteAt p pos)] 1 false

/-- start_hex from parser.c. -/
def start_hex (p : PState) : PState := { p with digit := 0 }

/-- The digit value a byte contributes in hexdigit (the final branch is
    asserted to be an uppercase hex digit in the C; the Nat subtraction
    saturates where the C would wrap). -/
def hexByteVal (ch : Nat) : Nat :=
  if 48 ≤ ch ∧ ch ≤ 57 then ch - 48
  else if 97 ≤ ch ∧ ch ≤ 102 then ch - 97 + 10
  else ch - 65 + 10

/-- hexdigit from parser.c: digit <<= 4 then add the value of the byte at the
    machine position (uint32 arithmetic). -/
def hexdigit (p : PState) (pos : Int) : PState :=
  let d := p.digit * 16 % 2 ^ 32
  { p with digit := (d + hexByteVal (byteAt p pos)) % 2 ^ 32 }

/-- The UTF-8 bytes end_hex computes for the accumulated code point (the
    three branches of the C, written with shifts in place of the in-place
    updates). -/
def endHexBytes (cp : Nat) : List Nat :=
  if cp ≤ 0x7F then [cp]
  else if cp ≤ 0x7FF then
    [(cp >>> 6) &&& 0x1F ||| 0xC0, cp &&& 0x3F ||| 0x80]
  else
    [(cp >>> 12) &&& 0x0F ||| 0xE0, (cp >>> 6) &&& 0x3F ||| 0x80, cp &&& 0x3F ||| 0x80]

/-- end_hex from parser.c: emit the code point as UTF-8 (surrogate pairs are
    not assembled, as the C TODO notes). -/
def end_hex (p : PState) : Bool × PState :=
  let utf8 := endHexBytes p.digit
  multipart_text p utf8 utf8.length false

/-- start_text from parser.c. -/
def start_text (p : PState) (pos : Int) : PState := capture_begin p (.bufp pos)

/-- end_text from parser.c. -/
def end_text (p : PState) (pos : Int) : Bool × PState := capture_end p (.bufp pos)

/-! Base64 decoding. -/

/-- Transcribed from the table b64table in upb/json/parser.c. -/
def b64table : List Int :=
  [ -1, -1, -1, -1, -1, -1, -1, -1, -1, -1, -1, -1, -1, -1, -1, -1, -1, -1, -1, -1,
    -1, -1, -1, -1, -1, -1, -1, -1, -1, -1, -1, -1, -1, -1, -1, -1, -1, -1, -1, -1,
    -1, -1, -1, 62, -1, -1, -1, 63, 52, 53, 54, 55, 56, 57, 58, 59, 60, 61, -1, -1,
    -1, -1, -1, -1, -1, 0, 1, 2, 3, 4, 5, 6, 7, 8, 9, 10, 11, 12, 13, 14,
    15, 16, 17, 18, 19, 20, 21, 22, 23, 24, 25, -1, -1, -1, -1, -1, -1, 26, 27, 28,
    29, 30, 31, 32, 33, 34, 35, 36, 37, 38, 39, 40, 41, 42, 43, 44, 45, 46, 47, 48,
    49, 50, 51, -1, -1, -1, -1, -1, -1, -1, -1, -1, -1, -1, -1, -1, -1, -1, -1, -1,
    -1, -1, -1, -1, -1, -1, -1, -1, -1, -1, -1, -1, -1, -1, -1, -1, -1, -1, -1, -1,
    -1, -1, -1, -1, -1, -1, -1, -1, -1, -1, -1, -1, -1, -1, -1, -1, -1, -1, -1, -1,
    -1, -1, -1, -1, -1, -1, -1, -1, -1, -1, -1, -1, -1, -1, -1, -1, -1, -1, -1, -1,
    -1, -1, -1, -1, -1, -1, -1, -1, -1, -1, -1, -1, -1, -1, -1, -1, -1, -1, -1, -1,
    -1, -1, -1, -1, -1, -1, -1, -1, -1, -1, -1, -1, -1, -1, -1, -1, -1, -1, -1, -1,
    -1, -1, -1, -1, -1, -1, -1, -1, -1, -1, -1, -1, -1, -1, -1, -1
  ]


/-- b64lookup from parser.c: the table value, sign-extended (bytes are
    already < 256). -/
def b64lookup (ch : Nat) : Int := b64table.getD ch (-1)

/-- nonbase64 from parser.c. -/
def nonbase64 (ch : Nat) : Bool := b64lookup ch == -1 && ch ≠ 61

/-- The int32 bit pattern of a table value as a uint32. -/
def sx32 (i : Int) : Nat := (i % (2 ^ 32 : Int)).toNat

/-- The 24-bit group word val of base64_push: each lookup shifted and masked
    to 32 bits, then or-ed (two-complement arithmetic of the C). -/
def b64word (c0 c1 c2 c3 : Nat) : Nat :=
  ((sx32 (b64lookup c0) <<< 18) &&& 0xFFFFFFFF) |||
    ((sx32 (b64lookup c1) <<< 12) &&& 0xFFFFFFFF) |||
    ((sx32 (b64lookup c2) <<< 6) &&& 0xFFFFFFFF) |||
    (sx32 (b64lookup c3) &&& 0xFFFFFFFF)

/-- The badpadding error message of base64_push. -/
def b64_badpadding_msg (fname : String) (c0 c1 c2 c3 : Nat) : List Nat :=
  strB "Incorrect base64 padding for field: " ++ strB fname ++ strB " (" ++
    [c0, c1, c2, c3] ++ strB ")"

/-- base64_push from parser.c, over the accumulated bytes in groups of four.
    The field name is read from the current frame for the error messages. -/
def base64_push (sel : String) : PState → List Nat → Bool × PState
  | p, [] => (true, p)
  | p, c0 :: c1 :: c2 :: c3 :: rest =>
    let val := b64word c0 c1 c2 c3
    if val &&& 0x80000000 == 0 then
      let out := [(val >>> 16) &&& 0xFF, (val >>> 8) &&& 0xFF, val &&& 0xFF]
      base64_push sel (emit p (.putstring sel out false)) rest
    else
      -- otherchar
      if nonbase64 c0 || nonbase64 c1 || nonbase64 c2 || nonbase64 c3 then
        (false, reporterr p (strB "Non-base64 characters in bytes field: " ++
          strB (fsel (topFrame p).f)))
      else if c2 == 61 then
        -- last group of two input bytes, one output byte; returns at once,
        -- dropping any bytes after this group
        if c0 == 61 || c1 == 61 || c3 ≠ 61 then
          (false, reporterr p (b64_badpadding_msg (fsel (topFrame p).f) c0 c1 c2 c3))
        else
          let val := ((sx32 (b64lookup c0) <<< 18) &&& 0xFFFFFFFF) |||
            ((sx32 (b64lookup c1) <<< 12) &&& 0xFFFFFFFF)
          (true, emit p (.putstring sel [(val >>> 16) &&& 0xFF] false))
      else
        -- last group of three input bytes, two output bytes
        if c0 == 61 || c1 == 61 || c2 == 61 then
          (false, reporterr p (b64_badpadding_msg (fsel (topFrame p).f) c0 c1 c2 c3))
        else
          let val := ((sx32 (b64lookup c0) <<< 18) &&& 0xFFFFFFFF) |||
            ((sx32 (b64lookup c1) <<< 12) &&& 0xFFFFFFFF) |||
            ((sx32 (b64lookup c2) <<< 6) &&& 0xFFFFFFFF)
          (true, emit p (.putstring sel [(val >>> 16) &&& 0xFF, (val >>> 8) &&& 0xFF] false))
  | p, rem =>
    -- fewer than four bytes remain: length not a multiple of four
    let _ := rem
    (false, reporterr p (strB "Base64 input for bytes field not a multiple of 4: " ++
      strB (fsel (topFrame p).f)))

/-! Number parsing. -/

def INT32_MAX : Int := 2147483647
def INT32_MIN : Int := -2147483648

/-- Core of parse_number_from_buffer from parser.c.  buf is NUL-terminated;
    u64src is the list the UINT64 branch parses: the source reads
    p->accumulated there where every other branch reads buf, so the callers
    instantiate u64src accordingly (the end-pointer comparison of that
    branch is modelled numerically against the length of buf, the two
    pointer bases being identical in every actual invocation).  errno is
    cleared on entry and threaded through the strto* calls, which never
    clear it. -/
def pnfb_core (p0 : PState) (buf : List Nat) (u64src : List Nat)
    (is_quoted : Bool) : Bool × PState :=
  let len := cstrlen buf
  let p := { p0 with errnoR := false }
  if len == 0 || buf.headD 0 == 32 then (false, p)
  else
    match (topFrame p).f with
    | none => (false, p)  -- unreachable: every caller has a current field
    | some f =>
      -- integer-specific fast paths; inr is the break of the C switch
      let ib : (Bool × PState) ⊕ PState :=
        match f.ftype with
        | .t_enum _ | .t_int32 =>
          let r := strtol buf 0
          let p := errup p r.erange
          if p.errnoR || r.endIdx ≠ len then .inr p
          else if r.val > INT32_MAX || r.val < INT32_MIN then .inl (false, p)
          else .inl (true, emit p (.putint32 (parser_getsel p) r.val))
        | .t_uint32 =>
          let r := strtoul buf 0
          let p := errup p r.erange
          if r.endIdx ≠ len then .inr p
          else if r.val > 4294967295 || p.errnoR then .inl (false, p)
          else .inl (true, emit p (.putuint32 (parser_getsel p) r.val))
        | .t_int64 =>
          let r := strtol buf 0
          let p := errup p r.erange
          if p.errnoR || r.endIdx ≠ len then .inr p
          else .inl (true, emit p (.putint64 (parser_getsel p) r.val))
        | .t_uint64 =>
          let r := strtoul u64src 0
          let p := errup p r.erange
          if r.endIdx ≠ len then .inr p
          else if p.errnoR then .inl (false, p)
          else .inl (true, emit p (.putuint64 (parser_getsel p) r.val))
        | _ => .inr p
      match ib with
      | .inl r => r
      | .inr p =>
        -- quoted numbers for integer types are not allowed in double form
        if (match f.ftype with
            | .t_double => false
            | .t_float => false
            | _ => true) && is_quoted then (false, p)
        else
          let dv : (Bool × PState) ⊕ (DVal × PState) :=
            if cstr buf == strB "Infinity" then .inr (.inf false, p)
            else if cstr buf == strB "-Infinity" then .inr (.inf true, p)
            else
              let r := strtod buf
              let p := errup p r.erange
              if p.errnoR || r.endIdx ≠ len then .inl (false, p)
              else .inr (r.val, p)
          match dv with
          | .inl r => r
          | .inr (val, p) =>
            match f.ftype with
            | .t_enum _ | .t_int32 =>
              -- the ENUM label falls through into the INT32 case of the C
              if !val.isIntegral || val.gtI INT32_MAX || val.ltI INT32_MIN then
                (false, p)
              else (true, emit p (.putint32 (parser_getsel p) val.trunc))
            | .t_int64 =>
              -- INT64_MAX converts to the double 2^63 in the C comparison
              if !val.isIntegral || val.gtI (2 ^ 63) || val.ltI (-(2 ^ 63)) then
                (false, p)
              else (true, emit p (.putint64 (parser_getsel p) val.trunc))
            | .t_uint32 =>
              if !val.isIntegral || val.gtI 4294967295 || val.ltI 0 then
                (false, p)
              else (true, emit p (.putuint32 (parser_getsel p) val.trunc.toNat))
            | .t_uint64 =>
              -- UINT64_MAX converts to the double 2^64 in the C comparison
              if !val.isIntegral || val.gtI (2 ^ 64) || val.ltI 0 then
                (false, p)
              else (true, emit p (.putuint64 (parser_getsel p) val.trunc.toNat))
            | .t_double => (true, emit p (.putdouble (parser_getsel p) val))
            | .t_float =>
              if (val.gtI FLT_MAX_INT || val.ltI (-FLT_MAX_INT)) &&
                  !val.isInf false && !val.isInf true then (false, p)
              else (true, emit p (.putfloat (parser_getsel p) val))
            | _ => (false, p)

/-- parse_number_from_buffer from parser.c: the UINT64 branch reads
    p->accumulated, as the source does. -/
def parse_number_from_buffer (p : PState) (buf : List Nat)
    (is_quoted : Bool) : Bool × PState :=
  pnfb_core p buf (p.accumulated.getD []) is_quoted

/-- The variant following the specification words: the UINT64 branch parses
    the same buffer buf as every other branch. -/
def parse_number_from_buffer_specUInt64 (p : PState) (buf : List Nat)
    (is_quoted : Bool) : Bool × PState :=
  pnfb_core p buf buf is_quoted

/-- parse_number from parser.c: force a NUL terminator into the accumulator,
    then parse the accumulated contiguous literal. -/
def parse_number (p : PState) (is_quoted : Bool) : Bool × PState :=
  match multipart_text p [0] 1 false with
  | (false, p) => (false, p)
  | (true, p) =>
    let buf := (accumulate_getptr p).1
    match parse_number_from_buffer p buf is_quoted with
    | (true, p) => (true, multipart_end p)
    | (false, p) =>
      let p := reporterr p (strB "error parsing number: " ++ cstr buf)
      (false, multipart_end p)

/-- parse_number with the spec-words variant of the buffer routine, for the
    refinement claim. -/
def parse_number_specUInt64 (p : PState) (is_quoted : Bool) : Bool × PState :=
  match multipart_text p [0] 1 false with
  | (false, p) => (false, p)
  | (true, p) =>
    let buf := (accumulate_getptr p).1
    match parse_number_from_buffer_specUInt64 p buf is_quoted with
    | (true, p) => (true, multipart_end p)
    | (false, p) =>
      let p := reporterr p (strB "error parsing number: " ++ cstr buf)
      (false, multipart_end p)

/-- parser_putbool from parser.c. -/
def parser_putbool (p : PState) (val : Bool) : Bool × PState :=
  match (topFrame p).f with
  | none => (true, p)
  | some f =>
    if f.ftype ≠ .t_bool then
      (false, reporterr p (strB "Boolean value specified for non-bool field: " ++
        strB f.fname))
    else (true, emit p (.putbool (parser_getsel p) val))

/-! Frame predicates from parser.c (the missing-descriptor fallbacks are
    unreachable with a well-formed schema; the C would dereference NULL). -/

def is_top_level (p : PState) : Bool :=
  p.top == 0 && (topFrame p).f == none

def does_number_wrapper_start (p : PState) : Bool :=
  match (topFrame p).f with
  | some f => fielddef_issubmsg f &&
      ((fielddef_msgsubdef p.env f).map is_number_wrapper).getD false
  | none => false

def does_number_wrapper_end (p : PState) : Bool :=
  ((topFrame p).m.map is_number_wrapper).getD false

def is_number_wrapper_object (p : PState) : Bool :=
  ((topFrame p).m.map is_number_wrapper).getD false

def does_string_wrapper_start (p : PState) : Bool :=
  match (topFrame p).f with
  | some f => fielddef_issubmsg f &&
      ((fielddef_msgsubdef p.env f).map is_string_wrapper).getD false
  | none => false

def does_string_wrapper_end (p : PState) : Bool :=
  ((topFrame p).m.map is_string_wrapper).getD false

def is_string_wrapper_object (p : PState) : Bool :=
  ((topFrame p).m.map is_string_wrapper).getD false

def does_boolean_wrapper_start (p : PState) : Bool :=
  match (topFrame p).f with
  | some f => fielddef_issubmsg f &&
      ((fielddef_msgsubdef p.env f).map is_bool_value).getD false
  | none => false

def does_boolean_wrapper_end (p : PState) : Bool :=
  ((topFrame p).m.map is_bool_value).getD false

def is_boolean_wrapper_object (p : PState) : Bool :=
  ((topFrame p).m.map is_bool_value).getD false

def does_duration_start (p : PState) : Bool :=
  match (topFrame p).f with
  | some f => fielddef_issubmsg f &&
      ((fielddef_msgsubdef p.env f).map msgdef_duration).getD false
  | none => false

def does_duration_end (p : PState) : Bool :=
  ((topFrame p).m.map msgdef_duration).getD false

def is_duration_object (p : PState) : Bool :=
  ((topFrame p).m.map msgdef_duration).getD false

def does_timestamp_start (p : PState) : Bool :=
  match (topFrame p).f with
  | some f => fielddef_issubmsg f &&
      ((fielddef_msgsubdef p.env f).map msgdef_timestamp).getD false
  | none => false

def does_timestamp_end (p : PState) : Bool :=
  ((topFrame p).m.map msgdef_timestamp).getD false

def is_timestamp_object (p : PState) : Bool :=
  ((topFrame p).m.map msgdef_timestamp).getD false

def does_value_start (p : PState) : Bool :=
  match (topFrame p).f with
  | some f => fielddef_issubmsg f &&
      ((fielddef_msgsubdef p.env f).map msgdef_value).getD false
  | none => false

def does_value_end (p : PState) : Bool :=
  ((topFrame p).m.map msgdef_value).getD false

def is_value_object (p : PState) : Bool :=
  ((topFrame p).m.map msgdef_value).getD false

def does_listvalue_start (p : PState) : Bool :=
  match (topFrame p).f with
  | some f => fielddef_issubmsg f &&
      ((fielddef_msgsubdef p.env f).map msgdef_listvalue).getD false
  | none => false

def does_listvalue_end (p : PState) : Bool :=
  ((topFrame p).m.map msgdef_listvalue).getD false

def is_listvalue_object (p : PState) : Bool :=
  ((topFrame p).m.map msgdef_listvalue).getD false

def does_structvalue_start (p : PState) : Bool :=
  match (topFrame p).f with
  | some f => fielddef_issubmsg f &&
      ((fielddef_msgsubdef p.env f).map msgdef_structvalue).getD false
  | none => false

def does_structvalue_end (p : PState) : Bool :=
  ((topFrame p).m.map msgdef_structvalue).getD false

def is_structvalue_object (p : PState) : Bool :=
  ((topFrame p).m.map msgdef_structvalue).getD false

/-! Object, member, map-entry and subobject callbacks. -/

/-- start_object from parser.c. -/
def start_object (p : PState) : PState :=
  if !(topFrame p).is_map then emit p .startmsg else p

/-- end_object from parser.c (the sink endmsg status is always ok in the
    model, so no error is reported). -/
def end_object (p : PState) : PState :=
  if !(topFrame p).is_map then emit p .endmsg else p

/-- start_member from parser.c (asserts no current field). -/
def start_member (p : PState) : PState := multipart_startaccum p

def UPB_MAPENTRY_KEY : Nat := 1
def UPB_MAPENTRY_VALUE : Nat := 2

/-- parse_mapentry_key from parser.c: emit the map-entry key field from the
    accumulated member name. -/
def parse_mapentry_key (p : PState) : Bool × PState :=
  let g := accumulate_getptr p
  let len := g.2
  let buf := g.1.take len
  match (topFrame p).m with
  | none => (false, p)  -- unreachable: handle_mapentry installed the message
  | some m =>
    let kf? := msgdef_itof m UPB_MAPENTRY_KEY
    let p := modifyFrame p p.top (fun fr => { fr with f := kf? })
    match kf? with
    | none => (false, reporterr p (strB "mapentry message has no key"))
    | some kf =>
      match kf.ftype with
      | .t_int32 | .t_int64 | .t_uint32 | .t_uint64 =>
        match parse_number p true with
        | (false, p) => (false, p)
        | (true, p) => (true, p)
      | .t_bool =>
        if len == 4 && buf.take 4 == strB "true" then
          match parser_putbool p true with
          | (false, p) => (false, p)
          | (true, p) => (true, multipart_end p)
        else if len == 5 && buf.take 5 == strB "false" then
          match parser_putbool p false with
          | (false, p) => (false, p)
          | (true, p) => (true, multipart_end p)
        else
          (false, reporterr p (strB "Map bool key not " ++ [39] ++ strB "true" ++
            [39] ++ strB " or " ++ [39] ++ strB "false" ++ [39]))
      | .t_string =>
        let p := emit p (.startstr (parser_getsel p) len)
        let p := emit p (.putstring (parser_getsel p) buf false)
        let p := emit p (.endstr (parser_getsel p))
        (true, multipart_end p)
      | .t_bytes =>
        let p := emit p (.startstr (parser_getsel p) len)
        let p := emit p (.putstring (parser_getsel p) buf false)
        let p := emit p (.endstr (parser_getsel p))
        (true, multipart_end p)
      | _ => (false, reporterr p (strB "Invalid field type for map key"))

/-- handle_mapentry from parser.c.  Note the C ignores the return value of
    parse_mapentry_key. -/
def handle_mapentry (p : PState) : Bool × PState :=
  match check_stack p with
  | (false, p) => (false, p)
  | (true, p) =>
    match (topFrame p).mapfield with
    | none => (false, p)  -- unreachable: a map frame always set mapfield
    | some mapfield =>
      match fielddef_msgsubdef p.env mapfield with
      | none => (false, p)  -- unreachable with a well-formed schema
      | some mapentrymsg =>
        let p := modifyFrame p p.top (fun fr => { fr with f := some mapfield })
        let p := emit p (.startsubmsg (parser_getsel p))
        let p := modifyFrame p (p.top + 1) (fun fr =>
          { fr with m := some mapentrymsg, name_table := none,
                    mapfield := some mapfield, is_map := false,
                    is_mapentry := false })
        let p := { p with top := p.top + 1 }
        let p := emit p .startmsg
        let p := (parse_mapentry_key p).2
        let vf? := msgdef_itof mapentrymsg UPB_MAPENTRY_VALUE
        let p := modifyFrame p p.top (fun fr =>
          { fr with f := vf?, is_mapentry := true, mapfield := some mapfield })
        match vf? with
        | none => (false, reporterr p (strB "mapentry message has no value"))
        | some _ => (true, p)

/-- end_membername from parser.c. -/
def end_membername (p : PState) : Bool × PState :=
  match (topFrame p).m with
  | none => (true, p)
  | some _ =>
    if (topFrame p).is_map then handle_mapentry p
    else
      let g := accumulate_getptr p
      let key := g.1.take g.2
      match (topFrame p).name_table with
      | none => (false, p)  -- unreachable: member frames carry their table
      | some t =>
        match strtable_lookup2 t key with
        | some f =>
          let p := modifyFrame p p.top (fun fr => { fr with f := some f })
          (true, multipart_end p)
        | none =>
          if p.ignore_json_unknown then (true, multipart_end p)
          else (false, reporterr p (strB "No such field: " ++ key ++ [10]))

/-- end_member from parser.c. -/
def end_member (p : PState) : PState :=
  let p :=
    if (topFrame p).is_mapentry then
      let p := emit p .endmsg
      let mapfield := (topFrame p).mapfield
      let p := { p with top := p.top - 1 }
      emit p (.endsubmsg (fsel mapfield))
    else p
  modifyFrame p p.top (fun fr => { fr with f := none })

/-- start_subobject from parser.c. -/
def start_subobject (p : PState) : Bool × PState :=
  match (topFrame p).f with
  | none =>
    match check_stack p with
    | (false, p) => (false, p)
    | (true, p) =>
      let p := modifyFrame p (p.top + 1) (fun fr =>
        { fr with m := none, f := none, is_map := false, is_mapentry := false })
      (true, { p with top := p.top + 1 })
  | some f =>
    if f.isMapF then
      match check_stack p with
      | (false, p) => (false, p)
      | (true, p) =>
        let p := emit p (.startseq (parser_getsel p))
        let p := modifyFrame p (p.top + 1) (fun fr =>
          { fr with m := fielddef_msgsubdef p.env f, name_table := none,
                    mapfield := some f, f := none, is_map := true,
                    is_mapentry := false })
        (true, { p with top := p.top + 1 })
    else if fielddef_issubmsg f then
      match check_stack p with
      | (false, p) => (false, p)
      | (true, p) =>
        let p := emit p (.startsubmsg (parser_getsel p))
        let p := modifyFrame p (p.top + 1) (fun fr =>
          { fr with m := fielddef_msgsubdef p.env f, f := none,
                    is_map := false, is_mapentry := false })
        let p := set_name_table p (p.top + 1)
        (true, { p with top := p.top + 1 })
    else
      (false, reporterr p (strB "Object specified for non-message/group field: " ++
        strB f.fname))

/-- end_subobject from parser.c. -/
def end_subobject (p : PState) : PState :=
  if is_top_level p then p
  else if (topFrame p).is_map then
    let p := { p with top := p.top - 1 }
    emit p (.endseq (parser_getsel p))
  else
    let is_unknown := (topFrame p).m == none
    let p := { p with top := p.top - 1 }
    if !is_unknown then emit p (.endsubmsg (parser_getsel p)) else p

/-! Wrapper, Value, ListValue and Struct synthesis. -/

def VALUE_NULLVALUE : Nat := 0
def VALUE_NUMBERVALUE : Nat := 1
def VALUE_STRINGVALUE : Nat := 2
def VALUE_BOOLVALUE : Nat := 3
def VALUE_STRUCTVALUE : Nat := 4
def VALUE_LISTVALUE : Nat := 5

/-- start_wrapper_object from parser.c (the helper results are discarded, as
    in the C). -/
def start_wrapper_object (p : PState) : PState :=
  let membername := strB "value"
  let p := start_object p
  let p := start_member p
  let p := capture_begin p (.litp membername 0)
  let p := (capture_end p (.litp membername 5)).2
  (end_membername p).2

/-- end_wrapper_object from parser.c. -/
def end_wrapper_object (p : PState) : PState := end_object (end_member p)

/-- start_value_object from parser.c. -/
def start_value_object (p : PState) (value_type : Nat) : PState :=
  let membername :=
    if value_type == VALUE_NULLVALUE then strB "null_value"
    else if value_type == VALUE_NUMBERVALUE then strB "number_value"
    else if value_type == VALUE_STRINGVALUE then strB "string_value"
    else if value_type == VALUE_BOOLVALUE then strB "bool_value"
    else if value_type == VALUE_STRUCTVALUE then strB "struct_value"
    else if value_type == VALUE_LISTVALUE then strB "list_value"
    else []
  let p := start_object p
  let p := start_member p
  let p := capture_begin p (.litp membername 0)
  let p := (capture_end p (.litp membername membername.length)).2
  (end_membername p).2

/-- end_value_object from parser.c. -/
def end_value_object (p : PState) : PState := end_object (end_member p)

/-- start_listvalue_object from parser.c. -/
def start_listvalue_object (p : PState) : PState :=
  let membername := strB "values"
  let p := start_object p
  let p := start_member p
  let p := capture_begin p (.litp membername 0)
  let p := (capture_end p (.litp membername membername.length)).2
  (end_membername p).2

/-- end_listvalue_object from parser.c. -/
def end_listvalue_object (p : PState) : PState := end_object (end_member p)

/-- start_structvalue_object from parser.c. -/
def start_structvalue_object (p : PState) : PState :=
  let membername := strB "fields"
  let p := start_object p
  let p := start_member p
  let p := capture_begin p (.litp membername 0)
  let p := (capture_end p (.litp membername membername.length)).2
  (end_membername p).2

/-- end_structvalue_object from parser.c. -/
def end_structvalue_object (p : PState) : PState := end_object (end_member p)

/-- start_subobject_full from parser.c. -/
def start_subobject_full (p : PState) : Bool × PState :=
  let pre : (Bool × PState) ⊕ PState :=
    if is_top_level p then
      if is_value_object p then
        let p := start_value_object p VALUE_STRUCTVALUE
        match start_subobject p with
        | (false, p) => .inl (false, p)
        | (true, p) => .inr (start_structvalue_object p)
      else if is_structvalue_object p then .inr (start_structvalue_object p)
      else .inl (true, p)
    else if does_structvalue_start p then
      match start_subobject p with
      | (false, p) => .inl (false, p)
      | (true, p) => .inr (start_structvalue_object p)
    else if does_value_start p then
      match start_subobject p with
      | (false, p) => .inl (false, p)
      | (true, p) =>
        let p := start_value_object p VALUE_STRUCTVALUE
        match start_subobject p with
        | (false, p) => .inl (false, p)
        | (true, p) => .inr (start_structvalue_object p)
    else .inr p
  match pre with
  | .inl r => r
  | .inr p => start_subobject p

/-- end_subobject_full from parser.c. -/
def end_subobject_full (p : PState) : PState :=
  let p := end_subobject p
  let p :=
    if does_structvalue_end p then
      let p := end_structvalue_object p
      if !is_top_level p then end_subobject p else p
    else p
  if does_value_end p then
    let p := end_value_object p
    if !is_top_level p then end_subobject p else p
  else p

/-- start_array from parser.c. -/
def start_array (p : PState) : Bool × PState :=
  let pre : (Bool × PState) ⊕ PState :=
    if is_top_level p then
      if is_value_object p then
        let p := start_value_object p VALUE_LISTVALUE
        match start_subobject p with
        | (false, p) => .inl (false, p)
        | (true, p) => .inr (start_listvalue_object p)
      else if is_listvalue_object p then .inr (start_listvalue_object p)
      else .inl (false, p)
    else if does_listvalue_start p then
      match start_subobject p with
      | (false, p) => .inl (false, p)
      | (true, p) => .inr (start_listvalue_object p)
    else if does_value_start p then
      match start_subobject p with
      | (false, p) => .inl (false, p)
      | (true, p) =>
        let p := start_value_object p VALUE_LISTVALUE
        match start_subobject p with
        | (false, p) => .inl (false, p)
        | (true, p) => .inr (start_listvalue_object p)
    else .inr p
  match pre with
  | .inl r => r
  | .inr p =>
    match (topFrame p).f with
    | none => (false, p)  -- asserted non-NULL in the C
    | some f =>
      if !f.isSeq then
        (false, reporterr p (strB "Array specified for non-repeated field: " ++
          strB f.fname))
      else
        match check_stack p with
        | (false, p) => (false, p)
        | (true, p) =>
          let p := emit p (.startseq (parser_getsel p))
          let p := modifyFrame p (p.top + 1) (fun fr =>
            { fr with m := (topFrame p).m, name_table := none,
                      f := (topFrame p).f, is_map := false, is_mapentry := false })
          (true, { p with top := p.top + 1 })

/-- end_array from parser.c (asserts top > stack; the Nat subtraction
    saturates where the C would underflow). -/
def end_array (p : PState) : PState :=
  let p := { p with top := p.top - 1 }
  let p := emit p (.endseq (parser_getsel p))
  let p :=
    if does_listvalue_end p then
      let p := end_listvalue_object p
      if !is_top_level p then end_subobject p else p
    else p
  if does_value_end p then
    let p := end_value_object p
    if !is_top_level p then end_subobject p else p
  else p

/-! Number, boolean, null and string-value callbacks. -/

/-- start_number from parser.c; pos is the machine position of the first
    byte of the literal. -/
def start_number (p : PState) (pos : Int) : Bool × PState :=
  let pre : (Bool × PState) ⊕ PState :=
    if is_top_level p then
      if is_number_wrapper_object p then .inr (start_wrapper_object p)
      else if is_value_object p then .inr (start_value_object p VALUE_NUMBERVALUE)
      else .inl (false, p)
    else if does_number_wrapper_start p then
      match start_subobject p with
      | (false, p) => .inl (false, p)
      | (true, p) => .inr (start_wrapper_object p)
    else if does_value_start p then
      match start_subobject p with
      | (false, p) => .inl (false, p)
      | (true, p) => .inr (start_value_object p VALUE_NUMBERVALUE)
    else .inr p
  match pre with
  | .inl r => r
  | .inr p =>
    let p := multipart_startaccum p
    (true, capture_begin p (.bufp pos))

/-- end_number_nontop from parser.c. -/
def end_number_nontop (p : PState) (pos : Int) : Bool × PState :=
  match capture_end p (.bufp pos) with
  | (false, p) => (false, p)
  | (true, p) =>
    if (topFrame p).f == none then (true, multipart_end p)
    else parse_number p false

/-- end_number from parser.c. -/
def end_number (p : PState) (pos : Int) : Bool × PState :=
  match end_number_nontop p pos with
  | (false, p) => (false, p)
  | (true, p) =>
    if does_number_wrapper_end p then
      let p := end_wrapper_object p
      (true, if !is_top_level p then end_subobject p else p)
    else if does_value_end p then
      let p := end_value_object p
      (true, if !is_top_level p then end_subobject p else p)
    else (true, p)

/-- end_bool from parser.c. -/
def end_bool (p : PState) (val : Bool) : Bool × PState :=
  let pre : (Bool × PState) ⊕ PState :=
    if is_top_level p then
      if is_boolean_wrapper_object p then .inr (start_wrapper_object p)
      else if is_value_object p then .inr (start_value_object p VALUE_BOOLVALUE)
      else .inl (false, p)
    else if does_boolean_wrapper_start p then
      match start_subobject p with
      | (false, p) => .inl (false, p)
      | (true, p) => .inr (start_wrapper_object p)
    else if does_value_start p then
      match start_subobject p with
      | (false, p) => .inl (false, p)
      | (true, p) => .inr (start_value_object p VALUE_BOOLVALUE)
    else .inr p
  match pre with
  | .inl r => r
  | .inr p =>
    match parser_putbool p val with
    | (false, p) => (false, p)
    | (true, p) =>
      if does_boolean_wrapper_end p then
        let p := end_wrapper_object p
        (true, if !is_top_level p then end_subobject p else p)
      else if does_value_end p then
        let p := end_value_object p
        (true, if !is_top_level p then end_subobject p else p)
      else (true, p)

/-- end_null from parser.c: outside a google.protobuf.Value context the null
    is discarded by returning true at once; inside one, the null_value field
    is filled by capturing the literal "0" (the helper results are discarded,
    as in the C). -/
def end_null (p : PState) : Bool × PState :=
  let zero := [48]
  let pre : (Bool × PState) ⊕ PState :=
    if is_top_level p then
      if is_value_object p then .inr (start_value_object p VALUE_NULLVALUE)
      else .inl (true, p)
    else if does_value_start p then
      match start_subobject p with
      | (false, p) => .inl (false, p)
      | (true, p) => .inr (start_value_object p VALUE_NULLVALUE)
    else .inl (true, p)
  match pre with
  | .inl r => r
  | .inr p =>
    let p := multipart_startaccum p
    let p := capture_begin p (.litp zero 0)
    let p := (capture_end p (.litp zero 1)).2
    let p := (parse_number p false).2
    let p := end_value_object p
    (true, if !is_top_level p then end_subobject p else p)

/-- start_stringval from parser.c. -/
def start_stringval (p : PState) : Bool × PState :=
  let pre : (Bool × PState) ⊕ PState :=
    if is_top_level p then
      if is_string_wrapper_object p then .inr (start_wrapper_object p)
      else if is_timestamp_object p || is_duration_object p then .inr (start_object p)
      else if is_value_object p then .inr (start_value_object p VALUE_STRINGVALUE)
      else .inl (false, p)
    else if does_string_wrapper_start p then
      match start_subobject p with
      | (false, p) => .inl (false, p)
      | (true, p) => .inr (start_wrapper_object p)
    else if does_timestamp_start p || does_duration_start p then
      match start_subobject p with
      | (false, p) => .inl (false, p)
      | (true, p) => .inr (start_object p)
    else if does_value_start p then
      match start_subobject p with
      | (false, p) => .inl (false, p)
      | (true, p) => .inr (start_value_object p VALUE_STRINGVALUE)
    else .inr p
  match pre with
  | .inl r => r
  | .inr p =>
    match (topFrame p).f with
    | none => (true, multipart_startaccum p)
    | some f =>
      if fielddef_isstring f then
        match check_stack p with
        | (false, p) => (false, p)
        | (true, p) =>
          let p := emit p (.startstr (parser_getsel p) 0)
          let p := modifyFrame p (p.top + 1) (fun fr =>
            { fr with m := (topFrame p).m, f := (topFrame p).f,
                      name_table := none, is_map := false, is_mapentry := false })
          let p := { p with top := p.top + 1 }
          if f.ftype = .t_string then
            (true, multipart_start p (parser_getsel p))
          else
            (true, multipart_startaccum p)
      else if (match f.ftype with
               | .t_bool => false
               | .t_message _ => false
               | _ => true) then
        (true, multipart_startaccum p)
      else
        (false, reporterr p (strB "String specified for bool or submessage field: " ++
          strB f.fname))

/-- end_stringval_nontop from parser.c.  A base64 failure returns before the
    final multipart_end, as in the C; every other outcome runs it. -/
def end_stringval_nontop (p : PState) : Bool × PState :=
  if is_timestamp_object p || is_duration_object p then (true, multipart_end p)
  else
    match (topFrame p).f with
    | none => (true, multipart_end p)
    | some f =>
      match f.ftype with
      | .t_bytes =>
        match base64_push (parser_getsel p) p
            ((p.accumulated.getD []).take p.accumulated_len) with
        | (false, p) => (false, p)
        | (true, p) =>
          let sel := parser_getsel p
          let p := { p with top := p.top - 1 }
          let p := emit p (.endstr sel)
          (true, multipart_end p)
      | .t_string =>
        let sel := parser_getsel p
        let p := { p with top := p.top - 1 }
        let p := emit p (.endstr sel)
        (true, multipart_end p)
      | .t_enum vals =>
        let g := accumulate_getptr p
        let bufl := g.1.take g.2
        match enumdef_ntoi vals bufl with
        | some v =>
          let p := emit p (.putint32 (parser_getsel p) v)
          (true, multipart_end p)
        | none =>
          let p := reporterr p (strB "Enum value unknown: " ++ [39] ++ bufl ++ [39])
          (false, multipart_end p)
      | .t_int32 =>
        let r := parse_number p true
        (r.1, multipart_end r.2)
      | .t_int64 =>
        let r := parse_number p true
        (r.1, multipart_end r.2)
      | .t_uint32 =>
        let r := parse_number p true
        (r.1, multipart_end r.2)
      | .t_uint64 =>
        let r := parse_number p true
        (r.1, multipart_end r.2)
      | .t_double =>
        let r := parse_number p true
        (r.1, multipart_end r.2)
      | .t_float =>
        let r := parse_number p true
        (r.1, multipart_end r.2)
      | _ =>
        let p := reporterr p (strB "Internal error in JSON decoder")
        (false, multipart_end p)

/-- end_stringval from parser.c. -/
def end_stringval (p : PState) : Bool × PState :=
  match end_stringval_nontop p with
  | (false, p) => (false, p)
  | (true, p) =>
    if does_string_wrapper_end p then
      let p := end_wrapper_object p
      (true, if !is_top_level p then end_subobject p else p)
    else if does_value_end p then
      let p := end_value_object p
      (true, if !is_top_level p then end_subobject p else p)
    else if does_timestamp_end p || does_duration_end p then
      let p := end_object p
      (true, if !is_top_level p then end_subobject p else p)
    else (true, p)

/-! Duration and Timestamp handlers. -/

/-- start_duration_base from parser.c. -/
def start_duration_base (p : PState) (pos : Int) : PState :=
  capture_begin p (.bufp pos)

/-- end_duration_base from parser.c: split the captured text at the first
    dot, parse the integral seconds with strtol base 10, range-check them,
    parse 0 ++ fraction with strtod and truncate val * 10^9 toward zero, then
    emit the synthetic seconds and nanos members.  seconds_buf and nanos_buf
    are zeroed stack buffers of 14 and 12 bytes (a longer base or fraction
    would overflow them in the C; the saturating padding below keeps the
    model total). -/
def end_duration_base (p : PState) (pos : Int) : Bool × PState :=
  match capture_end p (.bufp pos) with
  | (false, p) => (false, p)
  | (true, p) =>
    let g := accumulate_getptr p
    let len := g.2
    let buf := g.1.take len
    let fraction_start := (buf.takeWhile (fun b => b ≠ 46)).length
    let seconds_buf := buf.take fraction_start ++
      List.replicate (14 - fraction_start) 0
    let r := strtol seconds_buf 10
    let p := errup p r.erange
    if p.errnoR || r.endIdx ≠ fraction_start then
      (false, reporterr p (strB "error parsing duration: " ++ cstr seconds_buf))
    else if r.val > 315576000000 then
      (false, reporterr p
        (strB "error parsing duration: maximum acceptable value is 315576000000"))
    else if r.val < -315576000000 then
      (false, reporterr p
        (strB "error parsing duration: minimum acceptable value is -315576000000"))
    else
      let seconds := r.val
      let nanos_buf := 48 :: (buf.drop fraction_start) ++
        List.replicate (12 - (1 + (len - fraction_start))) 0
      let r2 := strtod nanos_buf
      let p := errup p r2.erange
      if p.errnoR || r2.endIdx ≠ len - fraction_start + 1 then
        (false, reporterr p (strB "error parsing duration: " ++ cstr nanos_buf))
      else
        let nanos0 := (r2.val.mulI 1000000000).trunc
        let nanos := if seconds < 0 then -nanos0 else nanos0
        let p := multipart_end p
        let sname := strB "seconds"
        let p := start_member p
        let p := capture_begin p (.litp sname 0)
        let p := (capture_end p (.litp sname 7)).2
        let p := (end_membername p).2
        let p := emit p (.putint64 (parser_getsel p) seconds)
        let p := end_member p
        let nname := strB "nanos"
        let p := start_member p
        let p := capture_begin p (.litp nname 0)
        let p := (capture_end p (.litp nname 5)).2
        let p := (end_membername p).2
        let p := emit p (.putint32 (parser_getsel p) nanos)
        let p := end_member p
        (true, multipart_startaccum p)

/-- start_timestamp_base from parser.c. -/
def start_timestamp_base (p : PState) (pos : Int) : PState :=
  capture_begin p (.bufp pos)

/-- end_timestamp_base from parser.c. -/
def end_timestamp_base (p : PState) (pos : Int) : Bool × PState :=
  match capture_end p (.bufp pos) with
  | (false, p) => (false, p)
  | (true, p) =>
    let g := accumulate_getptr p
    let buf := g.1.take g.2
    match strptime_FT buf p.tm with
    | none => (false, reporterr p (strB "error parsing timestamp: " ++ cstr buf))
    | some r =>
      let p := { p with tm := r.1 }
      (true, multipart_startaccum (multipart_end p))

/-- start_timestamp_fraction from parser.c. -/
def start_timestamp_fraction (p : PState) (pos : Int) : PState :=
  capture_begin p (.bufp pos)

/-- end_timestamp_fraction from parser.c. -/
def end_timestamp_fraction (p : PState) (pos : Int) : Bool × PState :=
  match capture_end p (.bufp pos) with
  | (false, p) => (false, p)
  | (true, p) =>
    let g := accumulate_getptr p
    let len := g.2
    let buf := g.1.take len
    if len > 10 then
      (false, reporterr p (strB "error parsing timestamp: at most 9-digit fraction."))
    else
      let nanos_buf := 48 :: buf ++ List.replicate (12 - (1 + len)) 0
      let r := strtod nanos_buf
      let p := errup p r.erange
      if p.errnoR || r.endIdx ≠ len + 1 then
        (false, reporterr p (strB "error parsing timestamp nanos: " ++ cstr nanos_buf))
      else
        let nanos := (r.val.mulI 1000000000).trunc
        let p := multipart_end p
        let nname := strB "nanos"
        let p := start_member p
        let p := capture_begin p (.litp nname 0)
        let p := (capture_end p (.litp nname 5)).2
        let p := (end_membername p).2
        let p := emit p (.putint32 (parser_getsel p) nanos)
        let p := end_member p
        (true, multipart_startaccum p)

/-- start_timestamp_zone from parser.c. -/
def start_timestamp_zone (p : PState) (pos : Int) : PState :=
  capture_begin p (.bufp pos)

/-- end_timestamp_zone from parser.c: apply the hour offset of opposite sign
    unless the zone is Z, normalize through mktime, validate the year 0001
    lower bound, and emit the seconds member. -/
def end_timestamp_zone (p : PState) (pos : Int) : Bool × PState :=
  match capture_end p (.bufp pos) with
  | (false, p) => (false, p)
  | (true, p) =>
    let g := accumulate_getptr p
    let buf := g.1.take g.2
    let hz : Option PState :=
      if buf.headD 0 ≠ 90 then
        match scan_hour2 (buf.drop 1) with
        | none => none
        | some hours =>
          let hours := if buf.headD 0 == 43 then -hours else hours
          some { p with tm := { p.tm with tm_hour := p.tm.tm_hour + hours } }
      else some p
    match hz with
    | none => (false, reporterr p (strB "error parsing timestamp offset"))
    | some p =>
      let seconds := c_mktime p.tm
      if seconds < -62135596800 then
        (false, reporterr p
          (strB "error parsing timestamp: minimum acceptable value is 0001-01-01T00:00:00Z"))
      else
        let p := multipart_end p
        let sname := strB "seconds"
        let p := start_member p
        let p := capture_begin p (.litp sname 0)
        let p := (capture_end p (.litp sname 7)).2
        let p := (end_membername p).2
        let p := emit p (.putint64 (parser_getsel p) seconds)
        let p := end_member p
        (true, multipart_startaccum p)

/-! The generated Ragel machine.  The tables below are transcribed verbatim
    from the generated arrays in upb/json/parser.c; the driver mirrors the
    generated control flow (binary searches over the key tables, the action
    interpreter, the fcall / fret / fhold register updates, and the
    end-of-buffer handling). -/

/-- Transcribed from the generated table _json_actions in upb/json/parser.c. -/
def json_actions : List Nat :=
  [ 0, 1, 0, 1, 1, 1, 3, 1, 4, 1, 6, 1, 7, 1, 8, 1, 9, 1, 10, 1,
    11, 1, 12, 1, 13, 1, 21, 1, 23, 1, 24, 1, 25, 1, 27, 1, 28, 1, 30, 1,
    32, 1, 33, 1, 34, 1, 35, 1, 36, 1, 38, 2, 4, 9, 2, 5, 6, 2, 7, 3,
    2, 7, 9, 2, 14, 15, 2, 16, 17, 2, 18, 19, 2, 22, 20, 2, 26, 37, 2, 29,
    2, 2, 30, 38, 2, 31, 20, 2, 33, 38, 2, 34, 38, 2, 35, 38, 3, 25, 22, 20,
    3, 26, 37, 38, 4, 14, 15, 16, 17
  ]

/-- Transcribed from the generated table _json_key_offsets in upb/json/parser.c. -/
def json_key_offsets : List Nat :=
  [ 0, 0, 12, 13, 18, 23, 28, 29, 30, 31, 32, 33, 34, 35, 36, 37, 38, 43, 48, 49,
    53, 58, 63, 68, 72, 76, 79, 82, 84, 88, 92, 94, 96, 101, 103, 105, 114, 120, 126, 132,
    138, 140, 144, 147, 149, 151, 154, 155, 159, 161, 163, 165, 167, 168, 170, 172, 173, 175, 177, 178,
    180, 182, 183, 185, 187, 188, 190, 192, 196, 198, 200, 201, 202, 203, 204, 206, 211, 220, 221, 221,
    221, 226, 231, 236, 237, 238, 239, 240, 240, 241, 242, 243, 243, 244, 245, 246, 246, 251, 256, 257,
    261, 266, 271, 276, 280, 280, 283, 286, 289, 292, 295, 298, 298, 298, 298, 298
  ]

/-- Transcribed from the generated table _json_trans_keys in upb/json/parser.c. -/
def json_trans_keys : List Nat :=
  [ 32, 34, 45, 91, 102, 110, 116, 123, 9, 13, 48, 57, 34, 32, 93, 125, 9, 13, 32, 44,
    93, 9, 13, 32, 93, 125, 9, 13, 97, 108, 115, 101, 117, 108, 108, 114, 117, 101, 32, 34,
    125, 9, 13, 32, 34, 125, 9, 13, 34, 32, 58, 9, 13, 32, 93, 125, 9, 13, 32, 44,
    125, 9, 13, 32, 44, 125, 9, 13, 32, 34, 9, 13, 45, 48, 49, 57, 48, 49, 57, 46,
    69, 101, 48, 57, 69, 101, 48, 57, 43, 45, 48, 57, 48, 57, 48, 57, 46, 69, 101, 48,
    57, 34, 92, 34, 92, 34, 47, 92, 98, 102, 110, 114, 116, 117, 48, 57, 65, 70, 97, 102,
    48, 57, 65, 70, 97, 102, 48, 57, 65, 70, 97, 102, 48, 57, 65, 70, 97, 102, 34, 92,
    45, 48, 49, 57, 48, 49, 57, 46, 115, 48, 57, 115, 48, 57, 34, 46, 115, 48, 57, 48,
    57, 48, 57, 48, 57, 48, 57, 45, 48, 57, 48, 57, 45, 48, 57, 48, 57, 84, 48, 57,
    48, 57, 58, 48, 57, 48, 57, 58, 48, 57, 48, 57, 43, 45, 46, 90, 48, 57, 48, 57,
    58, 48, 48, 34, 48, 57, 43, 45, 90, 48, 57, 34, 45, 91, 102, 110, 116, 123, 48, 57,
    34, 32, 93, 125, 9, 13, 32, 44, 93, 9, 13, 32, 93, 125, 9, 13, 97, 108, 115, 101,
    117, 108, 108, 114, 117, 101, 32, 34, 125, 9, 13, 32, 34, 125, 9, 13, 34, 32, 58, 9,
    13, 32, 93, 125, 9, 13, 32, 44, 125, 9, 13, 32, 44, 125, 9, 13, 32, 34, 9, 13,
    32, 9, 13, 32, 9, 13, 32, 9, 13, 32, 9, 13, 32, 9, 13, 32, 9, 13, 0
  ]

/-- Transcribed from the generated table _json_single_lengths in upb/json/parser.c. -/
def json_single_lengths : List Nat :=
  [ 0, 8, 1, 3, 3, 3, 1, 1, 1, 1, 1, 1, 1, 1, 1, 1, 3, 3, 1, 2,
    3, 3, 3, 2, 2, 1, 3, 0, 2, 2, 0, 0, 3, 2, 2, 9, 0, 0, 0, 0,
    2, 2, 1, 2, 0, 1, 1, 2, 0, 0, 0, 0, 1, 0, 0, 1, 0, 0, 1, 0,
    0, 1, 0, 0, 1, 0, 0, 4, 0, 0, 1, 1, 1, 1, 0, 3, 7, 1, 0, 0,
    3, 3, 3, 1, 1, 1, 1, 0, 1, 1, 1, 0, 1, 1, 1, 0, 3, 3, 1, 2,
    3, 3, 3, 2, 0, 1, 1, 1, 1, 1, 1, 0, 0, 0, 0, 0
  ]

/-- Transcribed from the generated table _json_range_lengths in upb/json/parser.c. -/
def json_range_lengths : List Nat :=
  [ 0, 2, 0, 1, 1, 1, 0, 0, 0, 0, 0, 0, 0, 0, 0, 0, 1, 1, 0, 1,
    1, 1, 1, 1, 1, 1, 0, 1, 1, 1, 1, 1, 1, 0, 0, 0, 3, 3, 3, 3,
    0, 1, 1, 0, 1, 1, 0, 1, 1, 1, 1, 1, 0, 1, 1, 0, 1, 1, 0, 1,
    1, 0, 1, 1, 0, 1, 1, 0, 1, 1, 0, 0, 0, 0, 1, 1, 1, 0, 0, 0,
    1, 1, 1, 0, 0, 0, 0, 0, 0, 0, 0, 0, 0, 0, 0, 0, 1, 1, 0, 1,
    1, 1, 1, 1, 0, 1, 1, 1, 1, 1, 1, 0, 0, 0, 0, 0
  ]

/-- Transcribed from the generated table _json_index_offsets in upb/json/parser.c. -/
def json_index_offsets : List Nat :=
  [ 0, 0, 11, 13, 18, 23, 28, 30, 32, 34, 36, 38, 40, 42, 44, 46, 48, 53, 58, 60,
    64, 69, 74, 79, 83, 87, 90, 94, 96, 100, 104, 106, 108, 113, 116, 119, 129, 133, 137, 141,
    145, 148, 152, 155, 158, 160, 163, 165, 169, 171, 173, 175, 177, 179, 181, 183, 185, 187, 189, 191,
    193, 195, 197, 199, 201, 203, 205, 207, 212, 214, 216, 218, 220, 222, 224, 226, 231, 240, 242, 243,
    244, 249, 254, 259, 261, 263, 265, 267, 268, 270, 272, 274, 275, 277, 279, 281, 282, 287, 292, 294,
    298, 303, 308, 313, 317, 318, 321, 324, 327, 330, 333, 336, 337, 338, 339, 340
  ]

/-- Transcribed from the generated table _json_indicies in upb/json/parser.c. -/
def json_indicies : List Nat :=
  [ 0, 2, 3, 4, 5, 6, 7, 8, 0, 3, 1, 9, 1, 11, 12, 1, 11, 10, 13, 14,
    12, 13, 1, 14, 1, 1, 14, 10, 15, 1, 16, 1, 17, 1, 18, 1, 19, 1, 20, 1,
    21, 1, 22, 1, 23, 1, 24, 1, 25, 26, 27, 25, 1, 28, 29, 30, 28, 1, 31, 1,
    32, 33, 32, 1, 33, 1, 1, 33, 34, 35, 36, 37, 35, 1, 38, 39, 30, 38, 1, 39,
    29, 39, 1, 40, 41, 42, 1, 41, 42, 1, 44, 45, 45, 43, 46, 1, 45, 45, 46, 43,
    47, 47, 48, 1, 48, 1, 48, 43, 44, 45, 45, 42, 43, 50, 51, 49, 53, 54, 52, 55,
    55, 55, 55, 55, 55, 55, 55, 56, 1, 57, 57, 57, 1, 58, 58, 58, 1, 59, 59, 59,
    1, 60, 60, 60, 1, 62, 63, 61, 64, 65, 66, 1, 67, 68, 1, 69, 70, 1, 71, 1,
    70, 71, 1, 72, 1, 69, 70, 68, 1, 73, 1, 74, 1, 75, 1, 76, 1, 77, 1, 78,
    1, 79, 1, 80, 1, 81, 1, 82, 1, 83, 1, 84, 1, 85, 1, 86, 1, 87, 1, 88,
    1, 89, 1, 90, 1, 91, 1, 92, 92, 93, 94, 1, 95, 1, 96, 1, 97, 1, 98, 1,
    99, 1, 100, 1, 101, 1, 102, 102, 103, 101, 1, 104, 105, 106, 107, 108, 109, 110, 105, 1,
    111, 1, 112, 113, 115, 116, 1, 115, 114, 117, 118, 116, 117, 1, 118, 1, 1, 118, 114, 119,
    1, 120, 1, 121, 1, 122, 1, 123, 124, 1, 125, 1, 126, 1, 127, 128, 1, 129, 1, 130,
    1, 131, 132, 133, 134, 132, 1, 135, 136, 137, 135, 1, 138, 1, 139, 140, 139, 1, 140, 1,
    1, 140, 141, 142, 143, 144, 142, 1, 145, 146, 137, 145, 1, 146, 136, 146, 1, 147, 148, 148,
    1, 149, 149, 1, 150, 150, 1, 151, 151, 1, 152, 152, 1, 153, 153, 1, 1, 1, 1, 1,
    1, 0
  ]

/-- Transcribed from the generated table _json_trans_targs in upb/json/parser.c. -/
def json_trans_targs : List Nat :=
  [ 1, 0, 2, 106, 3, 6, 10, 13, 16, 105, 4, 3, 105, 4, 5, 7, 8, 9, 107, 11,
    12, 108, 14, 15, 109, 17, 18, 110, 17, 18, 110, 19, 19, 20, 21, 22, 23, 110, 22, 23,
    25, 26, 32, 111, 27, 29, 28, 30, 31, 34, 112, 35, 34, 112, 35, 33, 36, 37, 38, 39,
    40, 34, 112, 35, 42, 43, 47, 43, 47, 44, 46, 45, 113, 49, 50, 51, 52, 53, 54, 55,
    56, 57, 58, 59, 60, 61, 62, 63, 64, 65, 66, 67, 68, 74, 73, 69, 70, 71, 72, 73,
    114, 75, 68, 73, 77, 79, 80, 83, 88, 92, 96, 78, 115, 115, 81, 80, 78, 81, 82, 84,
    85, 86, 87, 115, 89, 90, 91, 115, 93, 94, 95, 115, 97, 98, 104, 97, 98, 104, 99, 99,
    100, 101, 102, 103, 104, 102, 103, 115, 105, 105, 105, 105, 105, 105
  ]

/-- Transcribed from the generated table _json_trans_actions in upb/json/parser.c. -/
def json_trans_actions : List Nat :=
  [ 0, 0, 84, 78, 33, 0, 0, 0, 47, 39, 25, 0, 35, 0, 0, 0, 0, 0, 0, 0,
    0, 0, 0, 0, 0, 31, 96, 31, 0, 72, 0, 27, 0, 0, 25, 29, 29, 29, 0, 0,
    0, 0, 0, 3, 0, 0, 0, 0, 0, 5, 15, 0, 0, 51, 7, 13, 0, 54, 9, 9,
    9, 57, 60, 11, 17, 17, 17, 0, 0, 0, 19, 0, 21, 23, 0, 0, 0, 0, 0, 0,
    0, 0, 0, 0, 0, 0, 0, 0, 0, 0, 0, 0, 104, 63, 104, 0, 0, 0, 0, 0,
    69, 0, 66, 66, 84, 78, 33, 0, 0, 0, 47, 39, 49, 81, 25, 0, 35, 0, 0, 0,
    0, 0, 0, 90, 0, 0, 0, 93, 0, 0, 0, 87, 31, 96, 31, 0, 72, 0, 27, 0,
    0, 25, 29, 29, 29, 0, 0, 100, 0, 37, 43, 45, 41, 75
  ]

/-- Transcribed from the generated table _json_eof_actions in upb/json/parser.c. -/
def json_eof_actions : List Nat :=
  [ 0, 0, 0, 0, 0, 0, 0, 0, 0, 0, 0, 0, 0, 0, 0, 0, 0, 0, 0, 0,
    0, 0, 0, 0, 0, 0, 1, 0, 1, 0, 0, 1, 1, 0, 0, 0, 0, 0, 0, 0,
    0, 0, 0, 0, 0, 0, 0, 0, 0, 0, 0, 0, 0, 0, 0, 0, 0, 0, 0, 0,
    0, 0, 0, 0, 0, 0, 0, 0, 0, 0, 0, 0, 0, 0, 0, 0, 0, 0, 0, 0,
    0, 0, 0, 0, 0, 0, 0, 0, 0, 0, 0, 0, 0, 0, 0, 0, 0, 0, 0, 0,
    0, 0, 0, 0, 0, 0, 37, 43, 45, 41, 75, 0, 0, 0, 0, 0
  ]


def json_start : Int := 1

/-- List lookup with a possibly negative C index (out-of-range reads are
    undefined in the C; the model totalizes them to 0). -/
def ixN (l : List Nat) (i : Int) : Nat :=
  if i < 0 then 0 else l.getD i.toNat 0

/-- Key table entry as the signed char the generated comparisons use. -/
def keyAt (i : Int) : Int := (ixN json_trans_keys i : Int)

/-- Input byte as the signed char value the machine compares. -/
def sbyte (b : Nat) : Int := if b < 128 then (b : Int) else (b : Int) - 256

/-- The binary search over the single keys of a state (the first while loop
    of the generated lookup); returns the matching key index. -/
def bs1 : Nat → Int → Int → Int → Option Int
  | 0, _, _, _ => none
  | fuel + 1, lower, upper, c =>
    if upper < lower then none
    else
      let mid := lower + (upper - lower).tdiv 2
      if c < keyAt mid then bs1 fuel lower (mid - 1) c
      else if c > keyAt mid then bs1 fuel (mid + 1) upper c
      else some mid

/-- The binary search over the key ranges of a state (the second while loop;
    entries are pairs, and the midpoint is aligned downward to a pair). -/
def bs2 : Nat → Int → Int → Int → Option Int
  | 0, _, _, _ => none
  | fuel + 1, lower, upper, c =>
    if upper < lower then none
    else
      let d := (upper - lower).tdiv 2
      let mid := lower + (d - d.tmod 2)
      if c < keyAt mid then bs2 fuel lower (mid - 2) c
      else if c > keyAt (mid + 1) then bs2 fuel (mid + 2) upper c
      else some mid

/-- The transition lookup of the generated machine for state cs and input
    byte c, through the indirection table. -/
def lookupTrans (cs : Int) (c : Int) : Nat :=
  let keys : Int := ixN json_key_offsets cs
  let trans : Int := ixN json_index_offsets cs
  let klen : Int := ixN json_single_lengths cs
  let afterSingle : Int × Int ⊕ Int :=
    if klen > 0 then
      match bs1 64 keys (keys + klen - 1) c with
      | some mid => .inr (trans + (mid - keys))
      | none => .inl (keys + klen, trans + klen)
    else .inl (keys, trans)
  match afterSingle with
  | .inr t => ixN json_indicies t
  | .inl kt =>
    let keys := kt.1
    let trans := kt.2
    let rlen : Int := ixN json_range_lengths cs
    let t :=
      if rlen > 0 then
        match bs2 64 keys (keys + 2 * rlen - 2) c with
        | some mid => trans + (mid - keys).tdiv 2
        | none => trans + rlen
      else trans
    ixN json_indicies t

/-- Machine state: the Ragel registers cs, p, the fcall stack and its top,
    the parser state, and the position of the first failing callback (the
    error label of the generated code). -/
structure MSt where
  cs : Int
  pos : Int
  pstack : List Int
  ptop : Int
  pst : PState
  failed : Option Int
deriving Repr

/-- Read of the fcall stack at a C index. -/
def istkAt (l : List Int) (i : Int) : Int :=
  if i < 0 then 0 else l.getD i.toNat 0

/-- Write of the fcall stack at a C index (negative indices are undefined in
    the C and dropped here). -/
def istkSet (l : List Int) (i : Int) (v : Int) : List Int :=
  if i < 0 then l else l.set i.toNat v

/-- fret with fhold: p--; cs = stack[--top]. -/
def fretHold (ms : MSt) : MSt :=
  { ms with pos := ms.pos - 1, ptop := ms.ptop - 1,
            cs := istkAt ms.pstack (ms.ptop - 1) }

/-- fcall with fhold: p--; stack[top++] = cs; cs = target. -/
def fcallHold (target : Int) (ms : MSt) : MSt :=
  { ms with pos := ms.pos - 1, pstack := istkSet ms.pstack ms.ptop ms.cs,
            ptop := ms.ptop + 1, cs := target }

/-- fcall without fhold (the string/timestamp/duration dispatch action). -/
def fcallNoHold (target : Int) (ms : MSt) : MSt :=
  { ms with pstack := istkSet ms.pstack ms.ptop ms.cs,
            ptop := ms.ptop + 1, cs := target }

/-- Outcome of one action of the generated switch. -/
inductive AStep where
  | next (ms : MSt)
  | jmpAgain (ms : MSt)
  | fail (ms : MSt)

/-- A CHECK_RETURN_TOP callback result. -/
def doCb (ms : MSt) (r : Bool × PState) : AStep :=
  match r with
  | (true, p) => .next { ms with pst := p }
  | (false, p) => .fail { ms with pst := p, failed := some ms.pos }

/-- One case of the generated action switch (ids without a case fall
    through). -/
def execAct (ms : MSt) (id : Nat) : AStep :=
  match id with
  | 0 => .jmpAgain (fretHold ms)
  | 1 => .jmpAgain (fretHold ms)
  | 2 => .jmpAgain (fcallHold 24 ms)
  | 3 => .next { ms with pst := start_text ms.pst ms.pos }
  | 4 => doCb ms (end_text ms.pst ms.pos)
  | 5 => .next { ms with pst := start_hex ms.pst }
  | 6 => .next { ms with pst := hexdigit ms.pst ms.pos }
  | 7 => doCb ms (end_hex ms.pst)
  | 8 => doCb ms (escape ms.pst ms.pos)
  | 9 => .jmpAgain (fretHold ms)
  | 10 => .next { ms with pst := start_duration_base ms.pst ms.pos }
  | 11 => doCb ms (end_duration_base ms.pst ms.pos)
  | 12 => .jmpAgain (fretHold ms)
  | 13 => .next { ms with pst := start_timestamp_base ms.pst ms.pos }
  | 14 => doCb ms (end_timestamp_base ms.pst ms.pos)
  | 15 => .next { ms with pst := start_timestamp_fraction ms.pst ms.pos }
  | 16 => doCb ms (end_timestamp_fraction ms.pst ms.pos)
  | 17 => .next { ms with pst := start_timestamp_zone ms.pst ms.pos }
  | 18 => doCb ms (end_timestamp_zone ms.pst ms.pos)
  | 19 => .jmpAgain (fretHold ms)
  | 20 =>
    if is_timestamp_object ms.pst then .jmpAgain (fcallNoHold 48 ms)
    else if is_duration_object ms.pst then .jmpAgain (fcallNoHold 41 ms)
    else .jmpAgain (fcallNoHold 33 ms)
  | 21 => .jmpAgain (fcallHold 76 ms)
  | 22 => .next { ms with pst := start_member ms.pst }
  | 23 => doCb ms (end_membername ms.pst)
  | 24 => .next { ms with pst := end_member ms.pst }
  | 25 => .next { ms with pst := start_object ms.pst }
  | 26 => .next { ms with pst := end_object ms.pst }
  | 27 => doCb ms (start_array ms.pst)
  | 28 => .next { ms with pst := end_array ms.pst }
  | 29 => doCb ms (start_number ms.pst ms.pos)
  | 30 => doCb ms (end_number ms.pst ms.pos)
  | 31 => doCb ms (start_stringval ms.pst)
  | 32 => doCb ms (end_stringval ms.pst)
  | 33 => doCb ms (end_bool ms.pst true)
  | 34 => doCb ms (end_bool ms.pst false)
  | 35 => doCb ms (end_null ms.pst)
  | 36 => doCb ms (start_subobject_full ms.pst)
  | 37 => .next { ms with pst := end_subobject_full ms.pst }
  | 38 => .jmpAgain (fretHold ms)
  | _ => .next ms

/-- Outcome of an action list. -/
inductive AOut where
  | fall (ms : MSt)
  | again (ms : MSt)
  | err (ms : MSt)

/-- Execute an action list; a goto _again skips the remaining actions, a
    CHECK_RETURN_TOP failure jumps to the error label. -/
def execActs (ms : MSt) : List Nat → AOut
  | [] => .fall ms
  | id :: rest =>
    match execAct ms id with
    | .next ms => execActs ms rest
    | .jmpAgain ms => .again ms
    | .fail ms => .err ms

/-- The action list at an offset of the actions table: a count followed by
    that many action ids (offset 0 holds the empty list). -/
def actionSlice (off : Nat) : List Nat :=
  let n := json_actions.getD off 0
  (json_actions.drop (off + 1)).take n

/-- Control points of the generated loop. -/
inductive MLoc where
  | resume
  | again
  | testEof
deriving DecidableEq, Repr

/-- The generated machine loop.  One fuel unit is spent per visited control
    point; the fuel never runs out on the runs this file evaluates, and the
    theorems hold for every fuel. -/
def mrun (input : List Nat) (isEof : Bool) : Nat → MLoc → MSt → MSt
  | 0, _, ms => ms
  | fuel + 1, .resume, ms =>
    let c := sbyte (ms.pst.curBuf.getD ms.pos.toNat 0)
    let trans := lookupTrans ms.cs c
    let ms := { ms with cs := (ixN json_trans_targs trans : Int) }
    let aoff := ixN json_trans_actions trans
    let r := if aoff == 0 then AOut.fall ms else execActs ms (actionSlice aoff)
    match r with
    | .err ms => ms
    | .fall ms => mrun input isEof fuel .again ms
    | .again ms => mrun input isEof fuel .again ms
  | fuel + 1, .again, ms =>
    if ms.cs == 0 then ms
    else
      let ms := { ms with pos := ms.pos + 1 }
      if ms.pos ≠ (input.length : Int) then mrun input isEof fuel .resume ms
      else mrun input isEof fuel .testEof ms
  | fuel + 1, .testEof, ms =>
    if isEof && ms.pos == 0 then
      match execActs ms (actionSlice (ixN json_eof_actions ms.cs)) with
      | .err ms => ms
      | .again ms => mrun input isEof fuel .again ms
      | .fall ms => ms
    else ms

/-- The saved Ragel registers of the parser struct (current_state,
    parser_stack, parser_top). -/
structure SaveSt where
  cs : Int
  stk : List Int
  top : Int
deriving Repr

/-- Result of a parse call: bytes consumed (the C returns p - buf as a
    size_t; the model keeps the signed difference), the parser state, the
    saved registers, and the position at which a failing token stopped the
    machine, when one did. -/
structure ParseRes where
  consumed : Int
  pst : PState
  sv : SaveSt
  failedAt : Option Int
deriving Repr

/-- The parse entry point from parser.c: run the machine over one input
    buffer.  isEof models the sentinel call parse(parser, hd, &eof_ch, 0,
    NULL) that end() makes, whose buffer is the eof address itself. -/
def parse (pstIn : PState) (sv : SaveSt) (input : List Nat) (isEof : Bool)
    (fuel : Nat) : ParseRes :=
  let pst := { pstIn with curBuf := input }
  let pst := capture_resume pst
  let pe : Int := input.length
  let ms0 : MSt := ⟨sv.cs, 0, sv.stk, sv.top, pst, none⟩
  let msF :=
    if pe == 0 then mrun input isEof fuel .testEof ms0
    else if ms0.cs == 0 then ms0
    else mrun input isEof fuel .resume ms0
  match msF.failed with
  | some i => ⟨msF.pos, msF.pst, ⟨msF.cs, msF.pstack, msF.ptop⟩, some i⟩
  | none =>
    if msF.pos ≠ pe then
      let snippet := input.drop msF.pos.toNat
      let pst := reporterr msF.pst
        (strB "Parse error at " ++ [39] ++ snippet ++ [39, 10])
      ⟨msF.pos, pst, ⟨msF.cs, msF.pstack, msF.ptop⟩, some msF.pos⟩
    else
      let r := capture_suspend msF.pst msF.pos
      ⟨r.1, r.2, ⟨msF.cs, msF.pstack, msF.ptop⟩,
        if r.1 = msF.pos then none else some r.1⟩

/-- json_parser_reset from parser.c (the Ragel registers). -/
def reset_save : SaveSt := ⟨json_start, List.replicate UPB_JSON_MAX_DEPTH 0, 0⟩

/-- json_parser_reset and upb_json_parser_create from parser.c: the initial
    parser state over a schema environment and a root message, with the
    given ignore-unknown flag. -/
def parser_create (env : SchemaEnv) (root : MsgDef) (ignore : Bool) : PState :=
  let fr0 : Frame := ⟨some root, none, some (jsonNameTable root), false, false, none⟩
  ⟨env, (List.replicate UPB_JSON_MAX_DEPTH (default : Frame)).set 0 fr0,
   0, none, none, 0, 0, false, .inactive, "", none, 0, ignore, default, [], [], false⟩

/-! Concrete schemas and states used by the verification theorems. -/

def exInt32Field : FieldDef := ⟨"x", "x", 1, .t_int32, false, false⟩
def exEnumField : FieldDef := ⟨"e", "e", 2, .t_enum [("EV", 7)], false, false⟩
def exDoubleField : FieldDef := ⟨"dd", "dd", 3, .t_double, false, false⟩
def exMsg : MsgDef := ⟨"M", [exInt32Field, exEnumField, exDoubleField]⟩
def exEnv : SchemaEnv := [("M", exMsg)]

/-- A parser over exMsg with no current field. -/
def exBase : PState := parser_create exEnv exMsg false

/-- The same parser expecting the int32 field. -/
def exInt32State : PState :=
  modifyFrame exBase 0 (fun fr => { fr with f := some exInt32Field })

/-- The same parser expecting the enum field. -/
def exEnumState : PState :=
  modifyFrame exBase 0 (fun fr => { fr with f := some exEnumField })

/-- The same parser expecting the double field. -/
def exDoubleState : PState :=
  modifyFrame exBase 0 (fun fr => { fr with f := some exDoubleField })

def durMsg : MsgDef :=
  ⟨"google.protobuf.Duration",
   [⟨"seconds", "seconds", 1, .t_int64, false, false⟩,
    ⟨"nanos", "nanos", 2, .t_int32, false, false⟩]⟩
def durHost : MsgDef :=
  ⟨"H", [⟨"d", "d", 1, .t_message "google.protobuf.Duration", false, false⟩]⟩
def durEnv : SchemaEnv := [("H", durHost), ("google.protobuf.Duration", durMsg)]

/-- A parser over a message with one Duration field d. -/
def durState : PState := parser_create durEnv durHost false

def strMsg : MsgDef := ⟨"S", [⟨"s", "s", 1, .t_string, false, false⟩]⟩

/-- A parser over a message with one string field s. -/
def strState : PState := parser_create [("S", strMsg)] strMsg false

def recMsg : MsgDef := ⟨"R", [⟨"a", "a", 1, .t_message "R", false, false⟩]⟩

/-- A parser over a self-recursive message type, for nesting-depth runs. -/
def recState : PState := parser_create [("R", recMsg)] recMsg false

/-- The input that opens k submessage scopes through member a and then one
    more brace. -/
def deepInput (k : Nat) : List Nat :=
  (List.replicate k (strB "\x7b\"a\":")).flatten ++ strB "\x7b"

/-- A state for refinement and map-claim witnesses with an accumulated
    literal. -/
def c6Witness : PState :=
  { exInt32State with accumulated := some (strB "7" ++ [0]), accumulated_len := 2 }

/-- A state whose accumulated bytes name no field, for the unknown-member
    witnesses. -/
def c7Witness : PState :=
  { exBase with accumulated := some (strB "zz"), accumulated_len := 2,
                multipart_state := .accumulate, ignore_json_unknown := true }

/-- Like c7Witness but rejecting unknown members. -/
def c7WitnessStrict : PState := { c7Witness with ignore_json_unknown := false }

/-! Specification-side definitions the theorems compare against. -/

/-- The standard UTF-8 encoding of a code point below 0x10000, written
    arithmetically (the specification side of the escape-decoder claim). -/
def utf8Encode (c : Nat) : List Nat :=
  if c ≤ 0x7F then [c]
  else if c ≤ 0x7FF then [0xC0 + c / 64, 0x80 + c % 64]
  else [0xE0 + c / 4096, 0x80 + c / 64 % 64, 0x80 + c % 64]

/-- Complete groups of four base64 characters that decode through the main
    loop of base64_push (every character resolves in the lookup table). -/
inductive GoodGroups : List Nat → Prop where
  | nil : GoodGroups []
  | cons (c0 c1 c2 c3 : Nat) (rest : List Nat) :
      b64lookup c0 ≠ -1 → b64lookup c1 ≠ -1 → b64lookup c2 ≠ -1 →
      b64lookup c3 ≠ -1 → GoodGroups rest →
      GoodGroups (c0 :: c1 :: c2 :: c3 :: rest)

/-- Capture soundness for a buffer of length n: a live input capture points
    at an offset of at most n. -/
def CapOK (n : Int) (p : PState) : Prop :=
  ∀ i : Int, p.capture = some (.bufp i) → i ≤ n

/-- The machine invariant: capture soundness and the frame-stack bound. -/
def MInv (n : Int) (ms : MSt) : Prop :=
  CapOK n ms.pst ∧ ms.pst.top < UPB_JSON_MAX_DEPTH

/-- The accumulate buffer size after the copy-and-append path of
    accumulate_append (the realloc result when need exceeds the current
    size). -/
def aaNewSize (p : PState) (len : Nat) : Nat :=
  if p.accumulated_len + len > p.accumulate_buf_size then
    grow_loop (p.accumulated_len + len) (p.accumulated_len + len)
      (max p.accumulate_buf_size 128)
  else p.accumulate_buf_size

/-! Verification theorems. -/


lemma satmul2 (s : Nat) : saturating_multiply s 2 = min (2 * s) SIZE_MAX := by
  simp only [saturating_multiply, SIZE_MAX]
  split
  · omega
  · omega

lemma minpow_shift (s k : Nat) :
    min (min (2 * s) SIZE_MAX * 2 ^ k) SIZE_MAX = min (s * 2 ^ (k + 1)) SIZE_MAX := by
  have hk : (1 : Nat) ≤ 2 ^ k := Nat.one_le_two_pow
  have h2 : s * 2 ^ (k + 1) = 2 * s * 2 ^ k := by ring
  rcases le_or_lt (2 * s) SIZE_MAX with h | h
  · rw [min_eq_left h, h2]
  · rw [min_eq_right (le_of_lt h), h2]
    have h4 : 2 * s * 1 ≤ 2 * s * 2 ^ k := Nat.mul_le_mul (le_refl (2 * s)) hk
    have h5 : SIZE_MAX * 1 ≤ SIZE_MAX * 2 ^ k := Nat.mul_le_mul (le_refl SIZE_MAX) hk
    omega

lemma grow_loop_spec : ∀ (fuel need size : Nat), 0 < size → size ≤ SIZE_MAX →
    need ≤ SIZE_MAX → need ≤ fuel + size →
    ∃ k : Nat, grow_loop fuel need size = min (size * 2 ^ k) SIZE_MAX ∧
      need ≤ grow_loop fuel need size ∧
      ∀ j, j < k → min (size * 2 ^ j) SIZE_MAX < need := by
  intro fuel
  induction fuel with
  | zero =>
    intro need size h1 h2 h3 h4
    refine ⟨0, ?_, ?_, fun j hj => absurd hj (by omega)⟩
    · simp only [grow_loop, pow_zero, mul_one]
      omega
    · simp only [grow_loop]
      omega
  | succ f ih =>
    intro need size h1 h2 h3 h4
    by_cases hlt : size < need
    · have hgl : grow_loop (f + 1) need size =
          grow_loop f need (min (2 * size) SIZE_MAX) := by
        simp only [grow_loop, if_pos hlt, satmul2]
      have h1' : 0 < min (2 * size) SIZE_MAX := by
        simp only [SIZE_MAX]
        omega
      have h2' : min (2 * size) SIZE_MAX ≤ SIZE_MAX := min_le_right _ _
      have h4' : need ≤ f + min (2 * size) SIZE_MAX := by
        simp only [SIZE_MAX] at h3 ⊢
        omega
      obtain ⟨k, hk1, hk2, hk3⟩ := ih need (min (2 * size) SIZE_MAX) h1' h2' h3 h4'
      refine ⟨k + 1, ?_, ?_, ?_⟩
      · rw [hgl, hk1, minpow_shift]
      · rw [hgl]
        exact hk2
      · intro j hj
        match j with
        | 0 =>
          simp only [pow_zero, mul_one]
          omega
        | j + 1 =>
          have hh := hk3 j (by omega)
          rw [minpow_shift] at hh
          exact hh
    · have hgl : grow_loop (f + 1) need size = size := by
        simp only [grow_loop, if_neg hlt]
      refine ⟨0, ?_, ?_, fun j hj => absurd hj (by omega)⟩
      · rw [hgl]
        simp only [pow_zero, mul_one]
        omega
      · rw [hgl]
        omega

lemma grow_loop_pos : ∀ (fuel need s : Nat), 0 < s → 0 < grow_loop fuel need s := by
  intro fuel
  induction fuel with
  | zero =>
    intro need s hs
    simpa [grow_loop] using hs
  | succ f ih =>
    intro need s hs
    simp only [grow_loop]
    split
    · refine ih need (saturating_multiply s 2) ?_
      rw [satmul2]
      simp only [SIZE_MAX]
      omega
    · exact hs


lemma aa_some (p : PState) (buf : List Nat) (len : Nat) (can_alias : Bool)
    (c : List Nat) (hacc : p.accumulated = some c)
    (hov : ¬(SIZE_MAX - p.accumulated_len < len)) :
    accumulate_append p buf len can_alias =
      (true, { p with accumulated := some (c ++ buf.take len),
                      accumulated_len := p.accumulated_len + len,
                      accum_aliased := false,
                      accumulate_buf_size := aaNewSize p len }) := by
  unfold accumulate_append checked_add aaNewSize accumulate_realloc
  by_cases hre : p.accumulated_len + len > p.accumulate_buf_size
  · rcases hal : p.accum_aliased with _ | _
    · simp [hacc, hov, hal, hre]
    · simp [hacc, hov, hal, hre]
  · rcases hal : p.accum_aliased with _ | _
    · simp [hacc, hov, hal, hre]
    · simp [hacc, hov, hal, hre]

lemma aa_none_nc (p : PState) (buf : List Nat) (len : Nat)
    (hacc : p.accumulated = none)
    (hov : ¬(SIZE_MAX - p.accumulated_len < len)) :
    accumulate_append p buf len false =
      (true, { p with accumulated :=
                        (if 0 < aaNewSize p len then some (buf.take len) else none),
                      accumulated_len := p.accumulated_len + len,
                      accum_aliased :=
                        (if 0 < aaNewSize p len then false else p.accum_aliased),
                      accumulate_buf_size := aaNewSize p len }) := by
  unfold accumulate_append checked_add aaNewSize accumulate_realloc
  by_cases hre : p.accumulated_len + len > p.accumulate_buf_size
  · have hp : 0 < grow_loop (p.accumulated_len + len) (p.accumulated_len + len)
        (max p.accumulate_buf_size 128) :=
      grow_loop_pos _ _ _ (by omega)
    simp [hacc, hov, hre, hp, Nat.pos_iff_ne_zero.mp hp]
  · by_cases hbz : 0 < p.accumulate_buf_size
    · simp [hacc, hov, hre, hbz, Nat.pos_iff_ne_zero.mp hbz]
    · simp [hacc, hov, hre, hbz]



/-- C5: accumulate_append records the span zero-copy exactly when the
    accumulator is empty and can_alias is true; otherwise it copies any
    currently aliased span into the owned buffer and appends, the owned
    buffer growing by saturated doubling from a starting size of 128 to the
    least size of that chain reaching the needed length; and when the
    length addition accumulated_len + len overflows size_t it fails with
    the Integer overflow error. -/
theorem C5_accumulate_append (p : PState) (buf : List Nat) (len : Nat) (can_alias : Bool) :
    (accumulate_append p buf len can_alias =
        (true, { p with accumulated := some (buf.take len), accumulated_len := len,
                        accum_aliased := true }) ↔
      (p.accumulated = none ∧ can_alias = true)) ∧
    (p.accumulated_len + len ≤ SIZE_MAX →
      ¬(p.accumulated = none ∧ can_alias = true) →
      (accumulate_append p buf len can_alias).1 = true ∧
      ((accumulate_append p buf len can_alias).2.accumulated.getD [] =
        p.accumulated.getD [] ++ buf.take len) ∧
      (accumulate_append p buf len can_alias).2.accumulated_len =
        p.accumulated_len + len ∧
      (p.accumulated.isSome = true →
        (accumulate_append p buf len can_alias).2.accum_aliased = false) ∧
      (p.accumulated_len + len ≤ p.accumulate_buf_size →
        (accumulate_append p buf len can_alias).2.accumulate_buf_size =
          p.accumulate_buf_size) ∧
      (p.accumulate_buf_size ≤ SIZE_MAX →
        p.accumulate_buf_size < p.accumulated_len + len →
        ∃ k : Nat,
          (accumulate_append p buf len can_alias).2.accumulate_buf_size =
            min (max p.accumulate_buf_size 128 * 2 ^ k) SIZE_MAX ∧
          p.accumulated_len + len ≤
            (accumulate_append p buf len can_alias).2.accumulate_buf_size ∧
          ∀ j, j < k → min (max p.accumulate_buf_size 128 * 2 ^ j) SIZE_MAX <
            p.accumulated_len + len)) ∧
    (p.accumulated_len ≤ SIZE_MAX → SIZE_MAX < p.accumulated_len + len →
      ¬(p.accumulated = none ∧ can_alias = true) →
      accumulate_append p buf len can_alias =
        (false, reporterr p (strB "Integer overflow."))) := by
  by_cases hz : p.accumulated = none ∧ can_alias = true
  · obtain ⟨hz1, hz2⟩ := hz
    subst hz2
    have hr : accumulate_append p buf len true =
        (true, { p with accumulated := some (buf.take len), accumulated_len := len,
                        accum_aliased := true }) := by
      unfold accumulate_append
      simp [hz1]
    exact ⟨by simp [hr, hz1], fun _ h2 => absurd ⟨hz1, rfl⟩ h2,
      fun _ _ h3 => absurd ⟨hz1, rfl⟩ h3⟩
  · by_cases hov : SIZE_MAX - p.accumulated_len < len
    · have hr : accumulate_append p buf len can_alias =
          (false, reporterr p (strB "Integer overflow.")) := by
        unfold accumulate_append checked_add
        rcases hacc : p.accumulated with _ | c
        · rcases hca : can_alias with _ | _
          · simp [hacc, hov]
          · exact absurd ⟨hacc, hca⟩ hz
        · simp [hacc, hov]
      refine ⟨?_, ?_, fun _ _ _ => hr⟩
      · constructor
        · intro h
          rw [hr] at h
          exact absurd (congrArg Prod.fst h) (by simp)
        · intro h
          exact absurd h hz
      · intro h1 h2
        exact absurd hov (by omega)
    · rcases hacc : p.accumulated with _ | c
      · have hca : can_alias = false := by
          rcases hca : can_alias with _ | _
          · rfl
          · exact absurd ⟨hacc, hca⟩ hz
        subst hca
        have hr := aa_none_nc p buf len hacc hov
        refine ⟨?_, ?_, fun h1 h2 _ => absurd hov (by omega)⟩
        · constructor
          · intro h
            rw [hr] at h
            by_cases hpos : 0 < aaNewSize p len
            · have h2 := congrArg (fun r => r.2.accum_aliased) h
              simp [hpos] at h2
            · have h2 := congrArg (fun r => r.2.accumulated) h
              simp [hpos] at h2
          · intro h
            exact absurd h.2 (by simp)
        · intro hle hnz
          rw [hr]
          by_cases hpos : 0 < aaNewSize p len
          · refine ⟨rfl, by simp [hpos, hacc], rfl, by simp [hacc], ?_, ?_⟩
            · intro hfit
              simp only
              unfold aaNewSize
              rw [if_neg (by omega)]
            · intro hbs hlt
              simp only
              unfold aaNewSize
              rw [if_pos (by omega)]
              refine grow_loop_spec _ _ _ (by omega) ?_ hle (by omega)
              simp only [SIZE_MAX] at hbs ⊢
              omega
          · have hz0 : aaNewSize p len = 0 := by omega
            have hfit : ¬(p.accumulated_len + len > p.accumulate_buf_size) := by
              by_contra hcon
              have : 0 < aaNewSize p len := by
                unfold aaNewSize
                rw [if_pos hcon]
                exact grow_loop_pos _ _ _ (by omega)
              omega
            have hb0 : p.accumulate_buf_size = 0 := by
              unfold aaNewSize at hz0
              rw [if_neg hfit] at hz0
              exact hz0
            have hlen0 : len = 0 := by omega
            refine ⟨rfl, ?_, rfl, by simp [hacc], ?_, ?_⟩
            · simp only [hacc, Option.getD_none, List.nil_append, hlen0, List.take_zero]
              split <;> simp
            · intro _
              simp only
              omega
            · intro hbs hlt
              omega
      · have hr := aa_some p buf len can_alias c hacc hov
        refine ⟨?_, ?_, fun h1 h2 _ => absurd hov (by omega)⟩
        · constructor
          · intro h
            rw [hr] at h
            have := congrArg (fun r => r.2.accum_aliased) h
            simp at this
          · intro h
            exact absurd h.1 (by simp [hacc])
        · intro hle hnz
          rw [hr]
          refine ⟨rfl, by simp [hacc], rfl, fun _ => rfl, ?_, ?_⟩
          · intro hfit
            simp only
            unfold aaNewSize
            rw [if_neg (by omega)]
          · intro hbs hlt
            simp only
            unfold aaNewSize
            rw [if_pos (by omega)]
            refine grow_loop_spec _ _ _ (by omega) ?_ hle (by omega)
            simp only [SIZE_MAX] at hbs ⊢
            omega



theorem C5_accumulate_append_witness :
    accumulate_append { exBase with accumulated := some [55], accumulated_len := 1 }
        [] SIZE_MAX false =
      (false, reporterr { exBase with accumulated := some [55], accumulated_len := 1 }
        (strB "Integer overflow.")) :=
  (C5_accumulate_append { exBase with accumulated := some [55], accumulated_len := 1 }
    [] SIZE_MAX false).2.2 (by decide) (by decide) (by decide)


/-- C3: for an INT32 or ENUM target field, the quoted literal 2147483647
    succeeds and emits put-int32 of 2147483647; the quoted literals
    2147483648 and -2147483649 fail; and the quoted literal 3.14 fails for
    those fields although it parses through the double path (shown by the
    DOUBLE field accepting it), because a quoted literal for a
    non-float/double field must be pure integer syntax. -/
theorem C3_quoted_int32_enum_literals :
    (parse_number_from_buffer exInt32State (strB "2147483647" ++ [0]) true =
       (true, emit exInt32State (.putint32 "x" 2147483647))) ∧
    ((parse_number_from_buffer exInt32State (strB "2147483648" ++ [0]) true).1 = false) ∧
    ((parse_number_from_buffer exInt32State (strB "-2147483649" ++ [0]) true).1 = false) ∧
    ((parse_number_from_buffer exInt32State (strB "3.14" ++ [0]) true).1 = false) ∧
    (parse_number_from_buffer exEnumState (strB "2147483647" ++ [0]) true =
       (true, emit exEnumState (.putint32 "e" 2147483647))) ∧
    ((parse_number_from_buffer exEnumState (strB "2147483648" ++ [0]) true).1 = false) ∧
    ((parse_number_from_buffer exEnumState (strB "-2147483649" ++ [0]) true).1 = false) ∧
    ((parse_number_from_buffer exEnumState (strB "3.14" ++ [0]) true).1 = false) ∧
    ((parse_number_from_buffer exDoubleState (strB "3.14" ++ [0]) true).1 = true) := by
  decide

/-- C4: feeding the JSON document with "-0.250s" in a Duration field emits
    seconds = 0 and nanos = +250000000, not the nanos = -250000000 the claim
    and the specification scenario require: the sign flip is guarded by
    seconds < 0, which misses a negative duration whose integral part is -0,
    so the code contradicts the documented Duration JSON semantics. -/
theorem C4_duration_negative_zero_seconds :
    (parse durState reset_save (strB "\x7b\"d\":\"-0.250s\"\x7d") false 200).pst.events =
      [.startmsg, .startsubmsg "d", .startmsg, .putint64 "seconds" 0,
       .putint32 "nanos" 250000000, .endmsg, .endsubmsg "d"] ∧
    (parse durState reset_save (strB "\x7b\"d\":\"-0.250s\"\x7d") false 200).pst.status = none := by
  constructor <;> decide

/-- C6: parse_number always hands parse_number_from_buffer the pointer
    returned by accumulate_getptr, so the UINT64 branch that reads
    p->accumulated parses exactly the accumulated literal the other branches
    read from buf: the function is extensionally equal to the spec-words
    variant whose UINT64 branch reads buf, both at the parse_number level
    and, under the call-site invariant accumulated = buf, at the
    parse_number_from_buffer level. -/
theorem C6_uint64_branch_reads_accumulated :
    (∀ (p : PState) (q : Bool), parse_number p q = parse_number_specUInt64 p q) ∧
    (∀ (p : PState) (buf : List Nat) (q : Bool), p.accumulated = some buf →
      parse_number_from_buffer p buf q = parse_number_from_buffer_specUInt64 p buf q) := by
  constructor
  · intro p q
    rfl
  · intro p buf q h
    unfold parse_number_from_buffer parse_number_from_buffer_specUInt64
    rw [h]
    rfl

theorem C6_uint64_branch_reads_accumulated_witness :
    parse_number_from_buffer c6Witness (strB "7" ++ [0]) true =
      parse_number_from_buffer_specUInt64 c6Witness (strB "7" ++ [0]) true :=
  C6_uint64_branch_reads_accumulated.2 c6Witness (strB "7" ++ [0]) true rfl

/-- C7: for a frame with a message that is not a map, end_membername fails
    with the No-such-field error exactly when the accumulated member name is
    absent from the frame JSON-name table and ignore_unknown is false; when
    the name is absent and ignore_unknown is true it succeeds leaving the
    frame field null, so a subsequent value handler such as parser_putbool
    is a no-op. -/
theorem C7_end_membername_unknown_member (p : PState) (m : MsgDef)
    (t : List (List Nat × FieldDef))
    (hm : (topFrame p).m = some m) (hmap : (topFrame p).is_map = false)
    (hf : (topFrame p).f = none) (ht : (topFrame p).name_table = some t) :
    ((end_membername p).1 = false ↔
      (strtable_lookup2 t ((p.accumulated.getD []).take p.accumulated_len) = none ∧
        p.ignore_json_unknown = false)) ∧
    ((end_membername p).1 = false →
      (end_membername p).2.status = some (strB "No such field: " ++
        ((p.accumulated.getD []).take p.accumulated_len) ++ [10])) ∧
    (strtable_lookup2 t ((p.accumulated.getD []).take p.accumulated_len) = none →
      p.ignore_json_unknown = true →
      end_membername p = (true, multipart_end p) ∧
      (topFrame (end_membername p).2).f = none ∧
      parser_putbool (end_membername p).2 true = (true, (end_membername p).2)) := by
  have htf : topFrame (multipart_end p) = topFrame p := by
    simp [multipart_end, accumulate_clear, topFrame]
  rcases hl : strtable_lookup2 t ((p.accumulated.getD []).take p.accumulated_len)
    with _ | f
  · rcases hi : p.ignore_json_unknown with _ | _
    · have hr : end_membername p =
          (false, reporterr p (strB "No such field: " ++
            ((p.accumulated.getD []).take p.accumulated_len) ++ [10])) := by
        unfold end_membername
        simp [hm, hmap, ht, accumulate_getptr, hl, hi]
      refine ⟨?_, ?_, ?_⟩
      · simp [hr, hl, hi]
      · intro h
        simp [hr, reporterr]
      · intro h1 h2
        simp [hi] at h2
    · have hr : end_membername p = (true, multipart_end p) := by
        unfold end_membername
        simp [hm, hmap, ht, accumulate_getptr, hl, hi]
      refine ⟨?_, ?_, ?_⟩
      · simp [hr, hi]
      · intro h
        simp [hr] at h
      · intro h1 h2
        refine ⟨hr, ?_, ?_⟩
        · simp [hr, htf, hf]
        · unfold parser_putbool
          simp [hr, htf, hf]
  · have hr : end_membername p =
        (true, multipart_end (modifyFrame p p.top (fun fr => { fr with f := some f }))) := by
      unfold end_membername
      simp [hm, hmap, ht, accumulate_getptr, hl]
    refine ⟨?_, ?_, ?_⟩
    · simp [hr, hl]
    · intro h
      simp [hr] at h
    · intro h1 h2
      simp [hl] at h1

theorem C7_end_membername_unknown_member_witness :
    (end_membername c7Witness = (true, multipart_end c7Witness) ∧
      (topFrame (end_membername c7Witness).2).f = none ∧
      parser_putbool (end_membername c7Witness).2 true =
        (true, (end_membername c7Witness).2)) ∧
    (end_membername c7WitnessStrict).1 = false := by
  constructor
  · exact (C7_end_membername_unknown_member c7Witness exMsg (jsonNameTable exMsg)
      (by decide) (by decide) (by decide) (by decide)).2.2 (by decide) (by decide)
  · exact (C7_end_membername_unknown_member c7WitnessStrict exMsg (jsonNameTable exMsg)
      (by decide) (by decide) (by decide) (by decide)).1.mpr ⟨by decide, by decide⟩

theorem orLowAdd (k m x : Nat) (hx : x < 2 ^ k) : x ||| 2 ^ k * m = 2 ^ k * m + x := by
  rw [Nat.or_comm]
  exact (Nat.mul_add_lt_is_or hx m).symm

theorem endHexBytes_eq_utf8Encode (c : Nat) (hc : c ≤ 0xFFFF) :
    endHexBytes c = utf8Encode c := by
  unfold endHexBytes utf8Encode
  by_cases h1 : c ≤ 0x7F
  · simp [h1]
  · by_cases h2 : c ≤ 0x7FF
    · simp only [h1, h2, if_true, if_false]
      have hs : c >>> 6 = c / 64 := by
        rw [Nat.shiftRight_eq_div_pow]
      have hm : c / 64 &&& 0x1F = c / 64 := by
        have hlt : c / 64 < 2 ^ 5 := by omega
        have := Nat.and_pow_two_sub_one_eq_mod (c / 64) 5
        norm_num at this
        rw [this]
        omega
      have ho1 : c / 64 ||| 0xC0 = 0xC0 + c / 64 := by
        have := orLowAdd 6 3 (c / 64) (by omega)
        norm_num at this ⊢
        omega
      have hm2 : c &&& 0x3F = c % 64 := by
        have := Nat.and_pow_two_sub_one_eq_mod c 6
        norm_num at this
        exact this
      have ho2 : c % 64 ||| 0x80 = 0x80 + c % 64 := by
        have := orLowAdd 7 1 (c % 64) (by omega)
        norm_num at this ⊢
        omega
      rw [hs, hm, ho1, hm2, ho2]
    · simp only [h1, h2, if_false]
      have hs12 : c >>> 12 = c / 4096 := by
        rw [Nat.shiftRight_eq_div_pow]
      have hs6 : c >>> 6 = c / 64 := by
        rw [Nat.shiftRight_eq_div_pow]
      have hm1 : c / 4096 &&& 0x0F = c / 4096 := by
        have := Nat.and_pow_two_sub_one_eq_mod (c / 4096) 4
        norm_num at this
        rw [this]
        omega
      have ho1 : c / 4096 ||| 0xE0 = 0xE0 + c / 4096 := by
        have := orLowAdd 5 7 (c / 4096) (by omega)
        norm_num at this ⊢
        omega
      have hm2 : c / 64 &&& 0x3F = c / 64 % 64 := by
        have := Nat.and_pow_two_sub_one_eq_mod (c / 64) 6
        norm_num at this
        exact this
      have ho2 : c / 64 % 64 ||| 0x80 = 0x80 + c / 64 % 64 := by
        have := orLowAdd 7 1 (c / 64 % 64) (by omega)
        norm_num at this ⊢
        omega
      have hm3 : c &&& 0x3F = c % 64 := by
        have := Nat.and_pow_two_sub_one_eq_mod c 6
        norm_num at this
        exact this
      have ho3 : c % 64 ||| 0x80 = 0x80 + c % 64 := by
        have := orLowAdd 7 1 (c % 64) (by omega)
        norm_num at this ⊢
        omega
      rw [hs12, hs6, hm1, ho1, hm2, ho2, hm3, ho3]

/-- C8: the escape decoder accumulates four hex digits into digit and
    end_hex emits the UTF-8 encoding of the code point: one byte up to 0x7F,
    two bytes up to 0x7FF, three bytes otherwise (up to 0xFFFF), and in
    particular the document with string "a backslash-u00e9 b" pushes exactly
    the byte events 0x61, then 0xC3 0xA9, then 0x62. -/
theorem C8_hex_escape_utf8 (p : PState) (b1 b2 b3 b4 : Nat) (c : Nat)
    (h1 : hexByteVal b1 ≤ 15) (h2 : hexByteVal b2 ≤ 15)
    (h3 : hexByteVal b3 ≤ 15) (h4 : hexByteVal b4 ≤ 15)
    (hc : c ≤ 0xFFFF) :
    (hexdigit (hexdigit (hexdigit (hexdigit
        (start_hex { p with curBuf := [b1, b2, b3, b4] }) 0) 1) 2) 3).digit =
      4096 * hexByteVal b1 + 256 * hexByteVal b2 + 16 * hexByteVal b3 +
        hexByteVal b4 ∧
    endHexBytes c = utf8Encode c ∧
    (c ≤ 0x7F → (endHexBytes c).length = 1) ∧
    (0x80 ≤ c → c ≤ 0x7FF → (endHexBytes c).length = 2) ∧
    (0x800 ≤ c → (endHexBytes c).length = 3) ∧
    (parse strState reset_save (strB "\x7b\"s\":\"a\\u00e9b\"\x7d") false 200).pst.events =
      [.startmsg, .startstr "s" 0, .putstring "s" [0x61] true,
       .putstring "s" [0xC3, 0xA9] false, .putstring "s" [0x62] true, .endstr "s"] := by
  refine ⟨?_, ?_, ?_, ?_, ?_, ?_⟩
  · simp only [start_hex, hexdigit, byteAt]
    norm_num [List.getD]
    simp only [show (2 : Int).toNat = 2 from rfl, show (3 : Int).toNat = 3 from rfl]
    norm_num
    omega
  · exact endHexBytes_eq_utf8Encode c hc
  · intro hle
    simp [endHexBytes, hle]
  · intro hge hle
    have e1 : ¬(c ≤ 0x7F) := by omega
    simp [endHexBytes, e1, hle]
  · intro hge
    have e1 : ¬(c ≤ 0x7F) := by omega
    have e2 : ¬(c ≤ 0x7FF) := by omega
    simp [endHexBytes, e1, e2]
  · decide

theorem C8_hex_escape_utf8_witness :
    endHexBytes 233 = utf8Encode 233 :=
  (C8_hex_escape_utf8 exBase 48 48 101 57 233 (by decide) (by decide) (by decide)
    (by decide) (by decide)).2.1

theorem b64lookup_range (ch : Nat) :
    b64lookup ch = -1 ∨ (0 ≤ b64lookup ch ∧ b64lookup ch ≤ 63) := by
  unfold b64lookup
  rcases h : b64table[ch]? with _ | x
  · left
    simp [List.getD_eq_getElem?_getD, h]
  · have hx : x ∈ b64table := List.getElem?_mem h
    have hall : ∀ y ∈ b64table, y = -1 ∨ (0 ≤ y ∧ y ≤ 63) := by decide
    have hgd : b64table.getD ch (-1) = x := by
      simp [List.getD_eq_getElem?_getD, h]
    rw [hgd]
    exact hall x hx

theorem sx32_b64_le (a : Nat) (h : b64lookup a ≠ -1) : sx32 (b64lookup a) ≤ 63 := by
  rcases b64lookup_range a with h1 | ⟨h0, h63⟩
  · exact absurd h1 h
  · unfold sx32
    have he : b64lookup a % (2 ^ 32 : Int) = b64lookup a := Int.emod_eq_of_lt h0 (by omega)
    rw [he]
    omega

theorem b64_ne_eq (a : Nat) (h : b64lookup a ≠ -1) : (a == 61) = false := by
  by_cases hne : a = 61
  · subst hne
    exact absurd (by decide : b64lookup 61 = -1) h
  · simp [hne]

theorem nonbase64_of_good (a : Nat) (h : b64lookup a ≠ -1) : nonbase64 a = false := by
  unfold nonbase64
  simp [h]

theorem and_top_bit_zero {v : Nat} (h : v < 2 ^ 31) : v &&& 0x80000000 = 0 := by
  apply Nat.eq_of_testBit_eq
  intro i
  simp only [Nat.testBit_and, Nat.zero_testBit]
  by_cases hi : i = 31
  · subst hi
    simp [Nat.testBit_lt_two_pow h]
  · have he : (0x80000000 : Nat) = 2 ^ 31 := by norm_num
    rw [he, Nat.testBit_two_pow_of_ne (by omega)]
    simp

theorem or_top_bit_ne (x : Nat) : (x ||| 0xFFFFFFFF) &&& 0x80000000 ≠ 0 := by
  intro h
  have h31 : ((x ||| 0xFFFFFFFF) &&& 0x80000000).testBit 31 = true := by
    have he : (0x80000000 : Nat) = 2 ^ 31 := by norm_num
    rw [Nat.testBit_and, Nat.testBit_or, he, Nat.testBit_two_pow_self]
    have hf : ((0xFFFFFFFF : Nat)).testBit 31 = true := by decide
    rw [hf]
    simp
  rw [h] at h31
  simp at h31

theorem b64word_good_clear (x0 x1 x2 x3 : Nat)
    (h0 : x0 ≤ 63) (h1 : x1 ≤ 63) (h2 : x2 ≤ 63) (h3 : x3 ≤ 63) :
    (((x0 <<< 18) &&& 0xFFFFFFFF ||| (x1 <<< 12) &&& 0xFFFFFFFF) |||
        (x2 <<< 6) &&& 0xFFFFFFFF ||| x3 &&& 0xFFFFFFFF) &&& 0x80000000 = 0 := by
  apply and_top_bit_zero
  have e0 : x0 <<< 18 = x0 * 2 ^ 18 := Nat.shiftLeft_eq x0 18
  have e1 : x1 <<< 12 = x1 * 2 ^ 12 := Nat.shiftLeft_eq x1 12
  have e2 : x2 <<< 6 = x2 * 2 ^ 6 := Nat.shiftLeft_eq x2 6
  have t0 : (x0 <<< 18) &&& 0xFFFFFFFF < 2 ^ 24 :=
    Nat.lt_of_le_of_lt Nat.and_le_left (by rw [e0]; norm_num; omega)
  have t1 : (x1 <<< 12) &&& 0xFFFFFFFF < 2 ^ 24 :=
    Nat.lt_of_le_of_lt Nat.and_le_left (by rw [e1]; norm_num; omega)
  have t2 : (x2 <<< 6) &&& 0xFFFFFFFF < 2 ^ 24 :=
    Nat.lt_of_le_of_lt Nat.and_le_left (by rw [e2]; norm_num; omega)
  have t3 : x3 &&& 0xFFFFFFFF < 2 ^ 24 :=
    Nat.lt_of_le_of_lt Nat.and_le_left (by norm_num; omega)
  have hlt : (((x0 <<< 18) &&& 0xFFFFFFFF ||| (x1 <<< 12) &&& 0xFFFFFFFF) |||
      (x2 <<< 6) &&& 0xFFFFFFFF ||| x3 &&& 0xFFFFFFFF) < 2 ^ 24 :=
    Nat.or_lt_two_pow (Nat.or_lt_two_pow (Nat.or_lt_two_pow t0 t1) t2) t3
  exact Nat.lt_trans hlt (by norm_num)

/-- C9: after any run of complete good base64 groups, a group of the form
    xx eq eq (both tail characters the pad byte 61) makes base64_push emit the
    single byte of that group and return true immediately, whatever bytes
    follow, so trailing data after the padding group is silently dropped; in
    particular the eight characters AA eq eq AAAA decode to the single byte 0
    with success. -/
theorem C9_base64_padding_drops_trailing (sel : String) (p : PState)
    (pre : List Nat) (a b : Nat) (hpre : GoodGroups pre)
    (ha : b64lookup a ≠ -1) (hb : b64lookup b ≠ -1) :
    (∃ q : PState, ∀ trailing : List Nat,
        base64_push sel p (pre ++ a :: b :: 61 :: 61 :: trailing) =
          (true, emit q (.putstring sel
            [((((sx32 (b64lookup a) <<< 18) &&& 0xFFFFFFFF) |||
               ((sx32 (b64lookup b) <<< 12) &&& 0xFFFFFFFF)) >>> 16) &&& 0xFF] false))) ∧
    base64_push sel p (strB "AA==AAAA") =
      (true, emit p (.putstring sel [0] false)) := by
  constructor
  · induction hpre generalizing p with
    | nil =>
      refine ⟨p, fun trailing => ?_⟩
      have hD : sx32 (b64lookup 61) &&& 0xFFFFFFFF = 0xFFFFFFFF := by decide
      have hbit : b64word a b 61 61 &&& 0x80000000 ≠ 0 := by
        unfold b64word
        rw [hD]
        exact or_top_bit_ne _
      have hna : nonbase64 a = false := nonbase64_of_good a ha
      have hnb : nonbase64 b = false := nonbase64_of_good b hb
      have hn61 : nonbase64 61 = false := by decide
      have hea : (a == 61) = false := b64_ne_eq a ha
      have heb : (b == 61) = false := b64_ne_eq b hb
      simp only [List.nil_append, base64_push, hbit, hna, hnb, hn61, hea, heb]
      simp
      exact fun hcontra => absurd hcontra hbit
    | cons c0 c1 c2 c3 rest h0 h1 h2 h3 hrest ih =>
      have hw : b64word c0 c1 c2 c3 &&& 0x80000000 = 0 := by
        unfold b64word
        exact b64word_good_clear _ _ _ _ (sx32_b64_le _ h0) (sx32_b64_le _ h1)
          (sx32_b64_le _ h2) (sx32_b64_le _ h3)
      obtain ⟨q, hq⟩ := ih (emit p (.putstring sel
        [(b64word c0 c1 c2 c3 >>> 16) &&& 0xFF, (b64word c0 c1 c2 c3 >>> 8) &&& 0xFF,
         b64word c0 c1 c2 c3 &&& 0xFF] false))
      refine ⟨q, fun trailing => ?_⟩
      have hstep : base64_push sel p ((c0 :: c1 :: c2 :: c3 :: rest) ++
          a :: b :: 61 :: 61 :: trailing) =
          base64_push sel (emit p (.putstring sel
            [(b64word c0 c1 c2 c3 >>> 16) &&& 0xFF, (b64word c0 c1 c2 c3 >>> 8) &&& 0xFF,
             b64word c0 c1 c2 c3 &&& 0xFF] false)) (rest ++ a :: b :: 61 :: 61 :: trailing) := by
        simp only [List.cons_append, base64_push, hw]
        simp
      rw [hstep]
      exact hq trailing
  · rfl

theorem C9_base64_padding_drops_trailing_witness :
    base64_push "x" exBase (strB "AA==AAAA") =
      (true, emit exBase (.putstring "x" [0] false)) :=
  (C9_base64_padding_drops_trailing "x" exBase [] 65 65 GoodGroups.nil
    (by decide) (by decide)).2

/-- C10: in every context that is not a google.protobuf.Value - neither a
    top-level Value message nor a field whose submessage is Value - end_null
    returns true with the state unchanged: no sink event is emitted and no
    error is reported, whatever the current field is. -/
theorem C10_end_null_discards_null (p : PState)
    (h1 : ¬(is_top_level p = true ∧ is_value_object p = true))
    (h2 : ¬(is_top_level p = false ∧ does_value_start p = true)) :
    end_null p = (true, p) := by
  unfold end_null
  rcases hT : is_top_level p with _ | _
  · rcases hV : does_value_start p with _ | _
    · simp [hT, hV]
    · exact absurd ⟨hT, hV⟩ h2
  · rcases hV : is_value_object p with _ | _
    · simp [hT, hV]
    · exact absurd ⟨hT, hV⟩ h1

theorem C10_end_null_discards_null_witness :
    end_null exInt32State = (true, exInt32State) :=
  C10_end_null_discards_null exInt32State (by decide) (by decide)

end UpbJson
